import Mathlib

/-!
Verification of the rlox tree-walking interpreter (parser, resolver,
interpreter, environment and object model) against its natural-language
specification.  The Rust source is shallowly embedded: each Lean definition
mirrors the function of the same name in the repository.  Shared mutable
state (`Rc<RefCell<...>>` environments and instances) is modelled as a heap
of records addressed by stable indices, per the spec's own suggestion
(§9, "arena of environments addressed by stable integer index").  Host
panics (`panic!`, `unwrap` on `None`, `todo!`) are modelled as a distinct
`panic` outcome, separate from the interpreter's own error values.
-/

namespace RLox

/-! ## Numbers

`Literal::Number` wraps `rust_decimal::Decimal`, an external crate (not part
of this repository's sources).  Modelled from the spec: "Number (exact
decimal, not binary float — arithmetic must not introduce floating-point
rounding drift)" (§3).  A decimal is a scaled integer `m / 10^s`, exactly
the crate's data model (96-bit mantissa plus scale; the bit bound is never
reached by the programs considered here).  Comparison and equality are
numeric, so `1.0 = 1.00`, matching the crate.  -/

structure Dec where
  m : Int
  s : Nat
  deriving Repr, DecidableEq

namespace Dec

def toRat (d : Dec) : ℚ := (d.m : ℚ) / ((10 : ℚ) ^ d.s)

/-- Numeric equality of two scaled decimals (`Decimal: PartialEq`). -/
def beq (a b : Dec) : Bool := a.m * (10 : Int) ^ b.s == b.m * (10 : Int) ^ a.s

/-- Numeric strict order (`Decimal: PartialOrd`). -/
def blt (a b : Dec) : Bool := decide (a.m * (10 : Int) ^ b.s < b.m * (10 : Int) ^ a.s)

def ble (a b : Dec) : Bool := decide (a.m * (10 : Int) ^ b.s ≤ b.m * (10 : Int) ^ a.s)

/-- Addition rescales both operands to the larger scale; exact. -/
def add (a b : Dec) : Dec :=
  let s := max a.s b.s
  ⟨a.m * (10 : Int) ^ (s - a.s) + b.m * (10 : Int) ^ (s - b.s), s⟩

def sub (a b : Dec) : Dec :=
  let s := max a.s b.s
  ⟨a.m * (10 : Int) ^ (s - a.s) - b.m * (10 : Int) ^ (s - b.s), s⟩

def mul (a b : Dec) : Dec := ⟨a.m * b.m, a.s + b.s⟩

def neg (a : Dec) : Dec := ⟨-a.m, a.s⟩

/-- Long-division step: raise the scale until the quotient is exact, up to
the crate's maximum scale of 28 (beyond which the crate rounds; none of the
programs below divide at all). -/
def divLoop : Nat → Int → Int → Nat → (Int × Nat)
  | 0, num, den, sAcc => (num / den, sAcc)
  | fuel + 1, num, den, sAcc =>
    if num % den == 0 then (num / den, sAcc)
    else divLoop fuel (num * 10) den (sAcc + 1)

/-- Division; `rust_decimal` panics on a zero divisor, so the zero case is
handled by the caller. -/
def div (a b : Dec) : Dec :=
  let num := a.m * (10 : Int) ^ b.s
  let den := b.m * (10 : Int) ^ a.s
  let (q, s) := divLoop 28 num den 0
  ⟨q, s⟩

def isZero (a : Dec) : Bool := a.m == 0

/-- Left-pad a numeral with zeros to `width` digits. -/
def padZeros (s : String) (width : Nat) : String :=
  String.mk (List.replicate (width - s.length) '0') ++ s

/-- `Display for Decimal`: plain decimal text, the scale giving the number
of fractional digits; never an exponent. -/
def toStr (d : Dec) : String :=
  if d.s == 0 then toString d.m
  else
    let n := d.m.natAbs
    let ip := n / 10 ^ d.s
    let fp := n % 10 ^ d.s
    (if d.m < 0 then "-" else "") ++ toString ip ++ "." ++ padZeros (toString fp) d.s

end Dec

/-! ## Tokens (`src/tokens/mod.rs`) -/

inductive TokenType where
  | leftParen | rightParen | leftBrace | rightBrace
  | comma | dot | minus | plus | semicolon | slash | star
  | bang | bangEqual | equal | equalEqual
  | greater | greaterEqual | less | lessEqual
  | identifier | stringT | number
  | andT | classT | elseT | falseT | funT | forT | ifT | nilT | orT
  | printT | returnT | superT | thisT | trueT | varT | whileT
  | eof | none
  deriving Repr, DecidableEq

/-- `{:?}` (derived `Debug`) text of a `TokenType`, as used by
`Display for Token`. -/
def TokenType.debugStr : TokenType → String
  | .leftParen => "LeftParen" | .rightParen => "RightParen"
  | .leftBrace => "LeftBrace" | .rightBrace => "RightBrace"
  | .comma => "Comma" | .dot => "Dot" | .minus => "Minus" | .plus => "Plus"
  | .semicolon => "Semicolon" | .slash => "Slash" | .star => "Star"
  | .bang => "Bang" | .bangEqual => "BangEqual" | .equal => "Equal"
  | .equalEqual => "EqualEqual" | .greater => "Greater"
  | .greaterEqual => "GreaterEqual" | .less => "Less" | .lessEqual => "LessEqual"
  | .identifier => "Identifier" | .stringT => "String" | .number => "Number"
  | .andT => "And" | .classT => "Class" | .elseT => "Else" | .falseT => "False"
  | .funT => "Fun" | .forT => "For" | .ifT => "If" | .nilT => "Nil"
  | .orT => "Or" | .printT => "Print" | .returnT => "Return"
  | .superT => "Super" | .thisT => "This" | .trueT => "True"
  | .varT => "Var" | .whileT => "While"
  | .eof => "Eof" | .none => "None"

/-! ## AST nodes and runtime values

Generated by `build.rs` (`EXPRESSIONS` / `STATEMENTS` rule lists): every
node carries a process-unique integer `id` stamped by the parser.  Runtime
`Literal`s contain callables, whose `Function` values contain statement
bodies and captured environments; a `Token` carries a `Literal`; so the
whole family is one mutual inductive.  `Rc` references (environments of
closures, class instances) are heap indices. -/

mutual

inductive Token where
  | mk (tokenType : TokenType) (lexeme : String) (literal : Literal) (lineNumber : Nat)

inductive VariableExpr where
  | mk (id : Nat) (name : Token)

inductive ThisExpr where
  | mk (id : Nat) (keyword : Token)

inductive SuperExpr where
  | mk (id : Nat) (keyword : Token) (method : Token)

inductive Expr where
  | assign (id : Nat) (name : Token) (value : Expr)
  | binary (id : Nat) (left : Expr) (operator : Token) (right : Expr)
  | call (id : Nat) (callee : Expr) (arguments : List Expr)
  | get (id : Nat) (object : Expr) (name : Token)
  | grouping (id : Nat) (expression : Expr)
  | literal (id : Nat) (value : Literal)
  | logical (id : Nat) (left : Expr) (operator : Token) (right : Expr)
  | set (id : Nat) (object : Expr) (name : Token) (value : Expr)
  | superE (e : SuperExpr)
  | thisE (e : ThisExpr)
  | unary (id : Nat) (operator : Token) (right : Expr)
  | variableE (e : VariableExpr)

inductive FunctionStmt where
  | mk (id : Nat) (name : Token) (params : List Token) (body : List Stmt)

inductive Stmt where
  | block (id : Nat) (statements : List Stmt)
  | classS (id : Nat) (name : Token) (superclass : Option VariableExpr)
      (methods : List FunctionStmt)
  | expression (id : Nat) (expr : Expr)
  | function (f : FunctionStmt)
  | ifS (id : Nat) (condition : Expr) (thenBranch : Stmt) (elseBranch : Stmt)
  | print (id : Nat) (expression : Expr)
  | returnS (id : Nat) (value : Expr)
  | var (id : Nat) (name : Token) (initializer : Expr)
  | whileS (id : Nat) (condition : Expr) (body : Stmt)

inductive Literal where
  | nil
  | boolean (b : Bool)
  | callable (c : LoxCallable)
  | classInstance (i : Nat)
  | number (d : Dec)
  | string (s : String)

inductive LoxCallable where
  | mk (name : String) (callable : CallableK)

inductive CallableK where
  | cls (c : ClassV)
  | function (f : FunctionV)
  | native (n : Nat)

inductive FunctionV where
  | mk (body : List Stmt) (params : List Token) (env : Nat) (isInit : Bool)

inductive ClassV where
  | mk (name : String) (methods : List (String × FunctionV))

end

namespace Token
def tokenType : Token → TokenType | .mk t _ _ _ => t
def lexeme : Token → String | .mk _ l _ _ => l
def literal : Token → Literal | .mk _ _ v _ => v
def lineNumber : Token → Nat | .mk _ _ _ n => n
end Token

namespace VariableExpr
def id : VariableExpr → Nat | .mk i _ => i
def name : VariableExpr → Token | .mk _ n => n
end VariableExpr

namespace ThisExpr
def id : ThisExpr → Nat | .mk i _ => i
def keyword : ThisExpr → Token | .mk _ k => k
end ThisExpr

namespace SuperExpr
def id : SuperExpr → Nat | .mk i _ _ => i
def keyword : SuperExpr → Token | .mk _ k _ => k
def method : SuperExpr → Token | .mk _ _ m => m
end SuperExpr

namespace FunctionStmt
def id : FunctionStmt → Nat | .mk i _ _ _ => i
def name : FunctionStmt → Token | .mk _ n _ _ => n
def params : FunctionStmt → List Token | .mk _ _ p _ => p
def body : FunctionStmt → List Stmt | .mk _ _ _ b => b
end FunctionStmt

namespace LoxCallable
def name : LoxCallable → String | .mk n _ => n
def callable : LoxCallable → CallableK | .mk _ c => c
end LoxCallable

namespace FunctionV
def body : FunctionV → List Stmt | .mk b _ _ _ => b
def params : FunctionV → List Token | .mk _ p _ _ => p
def env : FunctionV → Nat | .mk _ _ e _ => e
def isInit : FunctionV → Bool | .mk _ _ _ i => i
end FunctionV

namespace ClassV
def name : ClassV → String | .mk n _ => n
def methods : ClassV → List (String × FunctionV) | .mk _ m => m
end ClassV

set_option maxHeartbeats 1600000

/-! ## Association-list maps

`BTreeMap`/`HashMap` with string keys: insert replaces, get finds the
entry.  Insertion keeps keys in ascending order, so a map's entry sequence
is canonical, exactly as a `BTreeMap` iterates — which matters where two
maps are compared (`BTreeMap: PartialEq` compares the sorted entry
sequences). -/

def alInsert {α : Type} : List (String × α) → String → α → List (String × α)
  | [], k, v => [(k, v)]
  | (k', v') :: rest, k, v =>
    if k' == k then (k, v) :: rest
    else if k < k' then (k, v) :: (k', v') :: rest
    else (k', v') :: alInsert rest k v

def alGet {α : Type} : List (String × α) → String → Option α
  | [], _ => Option.none
  | (k', v') :: rest, k => if k' == k then Option.some v' else alGet rest k

def alContains {α : Type} (m : List (String × α)) (k : String) : Bool :=
  (alGet m k).isSome

/-! ## Runtime state

The `Rc<RefCell<...>>` heap cells of `EnvRef` (src/environment.rs) and
`LoxInstance` (src/tokens/lox_instance.rs) live in two heaps addressed by
index; `Environments.stack` (src/interpreter/environments.rs) is a stack of
environment indices; `println!` output is collected in order. -/

structure EnvData where
  enclosing : Option Nat
  values : List (String × Literal)

instance : Inhabited EnvData := ⟨⟨Option.none, []⟩⟩

structure InstData where
  cls : ClassV
  fields : List (String × Literal)

instance : Inhabited InstData := ⟨⟨.mk "" [], []⟩⟩

structure RState where
  envs : List EnvData
  insts : List InstData
  stack : List Nat
  output : List String

/-- Outcomes of execution: normal value, `Error::SingleError`,
`Error::ReturnValue`, a host panic (`panic!` / `unwrap` / `todo!`), or
exhausted fuel (the Rust code would still be running). -/
inductive Outcome (α : Type) where
  | ok (a : α)
  | err (e : String)
  | ret (v : Literal)
  | panicked (msg : String)
  | oot

/-! ## Display (`impl Display for Literal` / `LoxCallable` / `LoxInstance`)

Stringification can panic: the `Callable::Native` arm of
`Display for LoxCallable` is `todo!("<native-fn {}", ...)`, which panics
with the message below.  The result is therefore an `Except` whose error
is the panic message. -/

def displayLoxCallable (c : LoxCallable) : Except String String :=
  match c.callable with
  | .cls _ => .ok ("<class " ++ c.name ++ ">")
  | .function _ => .ok ("<fn " ++ c.name ++ ">")
  | .native _ => .error ("not yet implemented: <native-fn " ++ c.name ++ ">")

def displayLit (st : RState) : Literal → Except String String
  | .nil => .ok "nil"
  | .boolean b => .ok (if b then "true" else "false")
  | .callable c => displayLoxCallable c
  | .classInstance i => .ok ("<instance " ++ (st.insts.getD i default).cls.name ++ ">")
  | .number d => .ok (Dec.toStr d)
  | .string s => .ok s

/-- Derived `Debug` for `Literal`, as printed inside `Display for Token`.
Tokens only ever carry `Nil`, `Number` or `String` literals; the remaining
arms are abbreviated renderings of the derived output. -/
def litDebug : Literal → String
  | .nil => "Nil"
  | .boolean b => "Boolean(" ++ (if b then "true" else "false") ++ ")"
  | .number d => "Number(" ++ Dec.toStr d ++ ")"
  | .string s => "String(\"" ++ s ++ "\")"
  | .callable c => "Callable(LoxCallable \x7b name: \"" ++ c.name ++ "\" \x7d)"
  | .classInstance i => "ClassInstance(" ++ toString i ++ ")"

/-- `impl Display for Token` (src/tokens/mod.rs). -/
def tokenDisplay (t : Token) : String :=
  "Token\x7btoken_type: " ++ t.tokenType.debugStr ++ ", lexeme: " ++ t.lexeme ++
  ", literal: " ++ litDebug t.literal ++ ", line_number: " ++ toString t.lineNumber ++ "\x7d"

/-! ## Environment chain (`EnvRef`, src/environment.rs) -/

def envGetD (st : RState) (i : Nat) : EnvData := st.envs.getD i default

def setEnv (st : RState) (i : Nat) (e : EnvData) : RState :=
  { st with envs := st.envs.set i e }

/-- `EnvRef::new`: allocate a fresh root environment, returning its index. -/
def envNew (st : RState) : Nat × RState :=
  (st.envs.length, { st with envs := st.envs ++ [⟨Option.none, []⟩] })

/-- `EnvRef::with_enclosing`. -/
def withEnclosing (st : RState) (enclosing : Nat) : Nat × RState :=
  (st.envs.length, { st with envs := st.envs ++ [⟨Option.some enclosing, []⟩] })

/-- `EnvRef::define`. -/
def envDefine (st : RState) (i : Nat) (name : String) (value : Literal) : RState :=
  let e := envGetD st i
  setEnv st i { e with values := alInsert e.values name value }

/-- `EnvRef::get_current`. -/
def getCurrent (st : RState) (i : Nat) (name : String) : Option Literal :=
  alGet (envGetD st i).values name

/-- `EnvRef::get_at_distance`; walking past the root panics
("Tried to find variable outside the scope cactus"). -/
def getAtDistance (st : RState) (i : Nat) : Nat → String → Except String (Option Literal)
  | 0, name => .ok (getCurrent st i name)
  | d + 1, name =>
    match (envGetD st i).enclosing with
    | Option.some e => getAtDistance st e d name
    | Option.none => .error "Tried to find variable outside the scope cactus"

/-- `EnvRef::assign_current`: assignment requires the name to already have a
binding in this very environment. -/
def assignCurrent (st : RState) (i : Nat) (name : String) (value : Literal) :
    Except String RState :=
  let e := envGetD st i
  if alContains e.values name then
    .ok (setEnv st i { e with values := alInsert e.values name value })
  else
    .error ("Undefined variable '" ++ name ++ "'")

/-- `EnvRef::assign_at_distance`; walking past the root panics
("Tried to assign outside of the scope cactus"), which is distinct from the
"Undefined variable" error result. -/
def assignAtDistance (st : RState) (i : Nat) : Nat → String → Literal → Outcome RState
  | 0, name, value =>
    match assignCurrent st i name value with
    | .ok st' => .ok st'
    | .error e => .err e
  | d + 1, name, value =>
    match (envGetD st i).enclosing with
    | Option.some e => assignAtDistance st e d name value
    | Option.none => .panicked "Tried to assign outside of the scope cactus"

/-- Walk to the root (global) environment.  The enclosing chain is acyclic
by construction (`with_enclosing` only ever links to already-existing
environments), so the fuel `st.envs.length` always suffices. -/
def rootEnv (st : RState) : Nat → Nat → Option Nat
  | _, 0 => Option.none
  | i, fuel + 1 =>
    match (envGetD st i).enclosing with
    | Option.none => Option.some i
    | Option.some e => rootEnv st e fuel

/-- `EnvRef::get_global`. -/
def getGlobal (st : RState) (i : Nat) (name : String) : Option Literal :=
  match rootEnv st i (st.envs.length + 1) with
  | Option.some r => getCurrent st r name
  | Option.none => Option.none

/-- `EnvRef::assign_global`. -/
def assignGlobal (st : RState) (i : Nat) (name : String) (value : Literal) :
    Except String RState :=
  match rootEnv st i (st.envs.length + 1) with
  | Option.some r => assignCurrent st r name value
  | Option.none => .error ("Undefined variable '" ++ name ++ "'")

/-! ## `Environments` (src/interpreter/environments.rs) -/

/-- The resolver's output: node id ↦ distance.  The source keys the map by
the full `Expr` with derived `Hash`/`Eq`; node ids are process-unique
(§3 of the spec, enforced by the parser's counter), so keying by id is
observationally identical. -/
def Locals : Type := List (Nat × Nat)

def localsGet (locals : Locals) (id : Nat) : Option Nat :=
  match locals.find? (fun p => p.fst == id) with
  | Option.some p => Option.some p.snd
  | Option.none => Option.none

/-- `Environments::peek`: the top of the scope stack.  The stack is seeded
with the global environment and pushes/pops are balanced, so `unwrap`
cannot fire; the default index 0 is the global environment. -/
def peekEnv (st : RState) : Nat := st.stack.headD 0

def pushScope (st : RState) (i : Nat) : RState := { st with stack := i :: st.stack }

def popScope (st : RState) : RState := { st with stack := st.stack.tail }

/-- `Environments::look_up_variable`: consult the resolver's map; a hit is
read at that distance from the innermost live environment, a miss targets
the global environment.  An absent value is a host `panic!`, not an error
result. -/
def lookUpVariable (locals : Locals) (st : RState) (name : String)
    (vexpr : VariableExpr) : Outcome Literal :=
  let value : Except String (Option Literal) :=
    match localsGet locals vexpr.id with
    | Option.none => .ok (getGlobal st (peekEnv st) name)
    | Option.some distance => getAtDistance st (peekEnv st) distance name
  match value with
  | .error p => .panicked p
  | .ok Option.none =>
    .panicked ("variable with name '" ++ vexpr.name.lexeme ++ "' not defined")
  | .ok (Option.some literal) => .ok literal

/-- `Environments::assign_expression`. -/
def assignExpression (locals : Locals) (st : RState) (assignId : Nat)
    (name : String) (value : Literal) : Outcome RState :=
  match localsGet locals assignId with
  | Option.some distance => assignAtDistance st (peekEnv st) distance name value
  | Option.none =>
    match assignGlobal st (peekEnv st) name value with
    | .ok st' => .ok st'
    | .error e => .err e

/-- `Environments::assign` delegates to the current environment's `assign`
(assign-if-present, as `EnvRef::assign_current`). -/
def envsAssign (st : RState) (name : String) (value : Literal) : Except String RState :=
  assignCurrent st (peekEnv st) name value

/-! ## Instances (`LoxInstance`, src/tokens/lox_instance.rs) -/

def instNew (st : RState) (c : ClassV) : Nat × RState :=
  (st.insts.length, { st with insts := st.insts ++ [⟨c, []⟩] })

def instGetD (st : RState) (i : Nat) : InstData := st.insts.getD i default

/-- `LoxInstance::find_method`: looks only in the instance's own class's
method table (no superclass chain exists in `Class`). -/
def findMethod (st : RState) (i : Nat) (name : String) : Option FunctionV :=
  alGet (instGetD st i).cls.methods name

/-- `LoxInstance::set`. -/
def instSet (st : RState) (i : Nat) (name : String) (value : Literal) : RState :=
  let d := instGetD st i
  { st with insts := st.insts.set i { d with fields := alInsert d.fields name value } }

/-- `Function::bind`: extend the method's closure environment with `this`
bound to the instance.  The bound function is built with `Function::new`,
so its `is_initializer` flag is `false` whatever the original was. -/
def bindF (st : RState) (f : FunctionV) (inst : Nat) : FunctionV × RState :=
  let (e, st1) := withEnclosing st f.env
  let st2 := envDefine st1 e "this" (.classInstance inst)
  (⟨f.body, f.params, e, false⟩, st2)

/-- `LoxInstance::get`: fields first, then a bound method, else
"Undefined property". -/
def instGet (st : RState) (i : Nat) (name : String) : Outcome Literal × RState :=
  match alGet (instGetD st i).fields name with
  | Option.some v => (.ok v, st)
  | Option.none =>
    match findMethod st i name with
    | Option.none => (.err ("Undefined property: '" ++ name ++ "'"), st)
    | Option.some m =>
      let (bf, st1) := bindF st m i
      (.ok (.callable (.mk name (.function bf))), st1)

/-! ## Value equality (`#[derive(PartialEq)]` on the value family)

Field-by-field comparison in declaration order with short-circuiting `&&`,
as the derives produce, with the two special leaves the source has:
`Decimal` equality is numeric (scale-insensitive), and an `Rc` reference
(`EnvRef`, `LoxInstance`) compares via `Rc::eq`, which is
`Rc::ptr_eq(a, b) || *a == *b` (the `T: Eq` specialisation): pointer
identity short-circuits, otherwise the borrowed `Inner` CONTENTS are
compared, recursing through the heap.  That recursion is unbounded on the
cyclic environment graphs closures create, so the whole family is fuelled:
`none` means the comparison is still recursing — in the source, a host
stack overflow.  Every recursive call decrements the fuel, mirroring one
host stack frame. -/

/-- Short-circuiting `&&` over comparisons that may diverge. -/
def andEq (a : Option Bool) (b : Unit → Option Bool) : Option Bool :=
  match a with
  | Option.none => Option.none
  | Option.some false => Option.some false
  | Option.some true => b ()

section ValueEq

variable (st : RState)

mutual

/-- `Literal: PartialEq` (derived): same-variant payload comparison,
`false` across variants; `Number` via `Decimal::eq`. -/
def litEq : Nat → Literal → Literal → Option Bool
  | 0, _, _ => Option.none
  | _ + 1, .nil, .nil => Option.some true
  | _ + 1, .boolean a, .boolean b => Option.some (a == b)
  | fuel + 1, .callable a, .callable b => loxCallableEq fuel a b
  | fuel + 1, .classInstance i, .classInstance j => instRcEq fuel i j
  | _ + 1, .number a, .number b => Option.some (Dec.beq a b)
  | _ + 1, .string a, .string b => Option.some (a == b)
  | _ + 1, _, _ => Option.some false

/-- `LoxCallable: PartialEq` (derived): `name`, then `callable`. -/
def loxCallableEq : Nat → LoxCallable → LoxCallable → Option Bool
  | 0, _, _ => Option.none
  | fuel + 1, .mk n1 c1, .mk n2 c2 =>
    if n1 == n2 then callableKEq fuel c1 c2 else Option.some false

/-- `Callable: PartialEq` (derived enum); `Native` is a function pointer,
compared by identity. -/
def callableKEq : Nat → CallableK → CallableK → Option Bool
  | 0, _, _ => Option.none
  | fuel + 1, .cls a, .cls b => classVEq fuel a b
  | fuel + 1, .function a, .function b => functionVEq fuel a b
  | _ + 1, .native a, .native b => Option.some (a == b)
  | _ + 1, _, _ => Option.some false

/-- `Function: PartialEq` (derived): `body`, `params`, `env`,
`is_initializer`, in order. -/
def functionVEq : Nat → FunctionV → FunctionV → Option Bool
  | 0, _, _ => Option.none
  | fuel + 1, .mk b1 p1 e1 i1, .mk b2 p2 e2 i2 =>
    andEq (stmtListEq fuel b1 b2) (fun _ =>
      andEq (tokenListEq fuel p1 p2) (fun _ =>
        andEq (envRefEq fuel e1 e2) (fun _ =>
          Option.some (i1 == i2))))

/-- `Class: PartialEq` (derived): `name`, then the `methods` map. -/
def classVEq : Nat → ClassV → ClassV → Option Bool
  | 0, _, _ => Option.none
  | fuel + 1, .mk n1 m1, .mk n2 m2 =>
    if n1 == n2 then methodsEq fuel m1 m2 else Option.some false

/-- `BTreeMap<String, Function>: PartialEq`: the sorted entry sequences,
element by element. -/
def methodsEq : Nat → List (String × FunctionV) → List (String × FunctionV) → Option Bool
  | 0, _, _ => Option.none
  | _ + 1, [], [] => Option.some true
  | fuel + 1, (k1, f1) :: r1, (k2, f2) :: r2 =>
    if k1 == k2 then
      andEq (functionVEq fuel f1 f2) (fun _ => methodsEq fuel r1 r2)
    else Option.some false
  | _ + 1, _, _ => Option.some false

/-- `EnvRef: PartialEq` (derived, through `Rc::eq`): pointer identity, else
the borrowed `Inner` contents — `enclosing`, then `values`. -/
def envRefEq : Nat → Nat → Nat → Option Bool
  | 0, _, _ => Option.none
  | fuel + 1, i, j =>
    if i == j then Option.some true
    else
      andEq (optEnvRefEq fuel (envGetD st i).enclosing (envGetD st j).enclosing)
        (fun _ => valuesEq fuel (envGetD st i).values (envGetD st j).values)

/-- `Option<EnvRef>: PartialEq`. -/
def optEnvRefEq : Nat → Option Nat → Option Nat → Option Bool
  | 0, _, _ => Option.none
  | fuel + 1, Option.some i, Option.some j => envRefEq fuel i j
  | _ + 1, Option.none, Option.none => Option.some true
  | _ + 1, _, _ => Option.some false

/-- `BTreeMap<String, Literal>: PartialEq` (environment values, instance
fields). -/
def valuesEq : Nat → List (String × Literal) → List (String × Literal) → Option Bool
  | 0, _, _ => Option.none
  | _ + 1, [], [] => Option.some true
  | fuel + 1, (k1, v1) :: r1, (k2, v2) :: r2 =>
    if k1 == k2 then
      andEq (litEq fuel v1 v2) (fun _ => valuesEq fuel r1 r2)
    else Option.some false
  | _ + 1, _, _ => Option.some false

/-- `LoxInstance: PartialEq` (derived, through `Rc::eq`): pointer identity,
else the borrowed `Inner` contents — `class`, then `fields`.  Two distinct
fresh instances of one class therefore compare EQUAL. -/
def instRcEq : Nat → Nat → Nat → Option Bool
  | 0, _, _ => Option.none
  | fuel + 1, i, j =>
    if i == j then Option.some true
    else
      andEq (classVEq fuel (instGetD st i).cls (instGetD st j).cls)
        (fun _ => valuesEq fuel (instGetD st i).fields (instGetD st j).fields)

/-- `Token: PartialEq` (derived): `token_type`, `lexeme`, `literal`,
`line_number`. -/
def tokenEq : Nat → Token → Token → Option Bool
  | 0, _, _ => Option.none
  | fuel + 1, .mk t1 l1 v1 n1, .mk t2 l2 v2 n2 =>
    if t1 == t2 && l1 == l2 then
      andEq (litEq fuel v1 v2) (fun _ => Option.some (n1 == n2))
    else Option.some false

def tokenListEq : Nat → List Token → List Token → Option Bool
  | 0, _, _ => Option.none
  | _ + 1, [], [] => Option.some true
  | fuel + 1, a :: as, b :: bs =>
    andEq (tokenEq fuel a b) (fun _ => tokenListEq fuel as bs)
  | _ + 1, _, _ => Option.some false

def varExprEq : Nat → VariableExpr → VariableExpr → Option Bool
  | 0, _, _ => Option.none
  | fuel + 1, .mk i1 n1, .mk i2 n2 =>
    if i1 == i2 then tokenEq fuel n1 n2 else Option.some false

def thisExprEq : Nat → ThisExpr → ThisExpr → Option Bool
  | 0, _, _ => Option.none
  | fuel + 1, .mk i1 k1, .mk i2 k2 =>
    if i1 == i2 then tokenEq fuel k1 k2 else Option.some false

def superExprEq : Nat → SuperExpr → SuperExpr → Option Bool
  | 0, _, _ => Option.none
  | fuel + 1, .mk i1 k1 m1, .mk i2 k2 m2 =>
    if i1 == i2 then
      andEq (tokenEq fuel k1 k2) (fun _ => tokenEq fuel m1 m2)
    else Option.some false

/-- `Expr: PartialEq` (derived): same variant, `id` first, then the
payload fields in order. -/
def exprEq : Nat → Expr → Expr → Option Bool
  | 0, _, _ => Option.none
  | fuel + 1, .assign i1 n1 v1, .assign i2 n2 v2 =>
    if i1 == i2 then
      andEq (tokenEq fuel n1 n2) (fun _ => exprEq fuel v1 v2)
    else Option.some false
  | fuel + 1, .binary i1 l1 o1 r1, .binary i2 l2 o2 r2 =>
    if i1 == i2 then
      andEq (exprEq fuel l1 l2) (fun _ =>
        andEq (tokenEq fuel o1 o2) (fun _ => exprEq fuel r1 r2))
    else Option.some false
  | fuel + 1, .call i1 c1 a1, .call i2 c2 a2 =>
    if i1 == i2 then
      andEq (exprEq fuel c1 c2) (fun _ => exprListEq fuel a1 a2)
    else Option.some false
  | fuel + 1, .get i1 o1 n1, .get i2 o2 n2 =>
    if i1 == i2 then
      andEq (exprEq fuel o1 o2) (fun _ => tokenEq fuel n1 n2)
    else Option.some false
  | fuel + 1, .grouping i1 e1, .grouping i2 e2 =>
    if i1 == i2 then exprEq fuel e1 e2 else Option.some false
  | fuel + 1, .literal i1 v1, .literal i2 v2 =>
    if i1 == i2 then litEq fuel v1 v2 else Option.some false
  | fuel + 1, .logical i1 l1 o1 r1, .logical i2 l2 o2 r2 =>
    if i1 == i2 then
      andEq (exprEq fuel l1 l2) (fun _ =>
        andEq (tokenEq fuel o1 o2) (fun _ => exprEq fuel r1 r2))
    else Option.some false
  | fuel + 1, .set i1 o1 n1 v1, .set i2 o2 n2 v2 =>
    if i1 == i2 then
      andEq (exprEq fuel o1 o2) (fun _ =>
        andEq (tokenEq fuel n1 n2) (fun _ => exprEq fuel v1 v2))
    else Option.some false
  | fuel + 1, .superE e1, .superE e2 => superExprEq fuel e1 e2
  | fuel + 1, .thisE e1, .thisE e2 => thisExprEq fuel e1 e2
  | fuel + 1, .unary i1 o1 r1, .unary i2 o2 r2 =>
    if i1 == i2 then
      andEq (tokenEq fuel o1 o2) (fun _ => exprEq fuel r1 r2)
    else Option.some false
  | fuel + 1, .variableE e1, .variableE e2 => varExprEq fuel e1 e2
  | _ + 1, _, _ => Option.some false

def exprListEq : Nat → List Expr → List Expr → Option Bool
  | 0, _, _ => Option.none
  | _ + 1, [], [] => Option.some true
  | fuel + 1, a :: as, b :: bs =>
    andEq (exprEq fuel a b) (fun _ => exprListEq fuel as bs)
  | _ + 1, _, _ => Option.some false

def functionStmtEq : Nat → FunctionStmt → FunctionStmt → Option Bool
  | 0, _, _ => Option.none
  | fuel + 1, .mk i1 n1 p1 b1, .mk i2 n2 p2 b2 =>
    if i1 == i2 then
      andEq (tokenEq fuel n1 n2) (fun _ =>
        andEq (tokenListEq fuel p1 p2) (fun _ => stmtListEq fuel b1 b2))
    else Option.some false

def functionStmtListEq : Nat → List FunctionStmt → List FunctionStmt → Option Bool
  | 0, _, _ => Option.none
  | _ + 1, [], [] => Option.some true
  | fuel + 1, a :: as, b :: bs =>
    andEq (functionStmtEq fuel a b) (fun _ => functionStmtListEq fuel as bs)
  | _ + 1, _, _ => Option.some false

/-- `Stmt: PartialEq` (derived). -/
def stmtEq : Nat → Stmt → Stmt → Option Bool
  | 0, _, _ => Option.none
  | fuel + 1, .block i1 s1, .block i2 s2 =>
    if i1 == i2 then stmtListEq fuel s1 s2 else Option.some false
  | fuel + 1, .classS i1 n1 sc1 m1, .classS i2 n2 sc2 m2 =>
    if i1 == i2 then
      andEq (tokenEq fuel n1 n2) (fun _ =>
        andEq
          (match sc1, sc2 with
           | Option.none, Option.none => Option.some true
           | Option.some a, Option.some b => varExprEq fuel a b
           | _, _ => Option.some false)
          (fun _ => functionStmtListEq fuel m1 m2))
    else Option.some false
  | fuel + 1, .expression i1 e1, .expression i2 e2 =>
    if i1 == i2 then exprEq fuel e1 e2 else Option.some false
  | fuel + 1, .function f1, .function f2 => functionStmtEq fuel f1 f2
  | fuel + 1, .ifS i1 c1 t1 e1, .ifS i2 c2 t2 e2 =>
    if i1 == i2 then
      andEq (exprEq fuel c1 c2) (fun _ =>
        andEq (stmtEq fuel t1 t2) (fun _ => stmtEq fuel e1 e2))
    else Option.some false
  | fuel + 1, .print i1 e1, .print i2 e2 =>
    if i1 == i2 then exprEq fuel e1 e2 else Option.some false
  | fuel + 1, .returnS i1 v1, .returnS i2 v2 =>
    if i1 == i2 then exprEq fuel v1 v2 else Option.some false
  | fuel + 1, .var i1 n1 v1, .var i2 n2 v2 =>
    if i1 == i2 then
      andEq (tokenEq fuel n1 n2) (fun _ => exprEq fuel v1 v2)
    else Option.some false
  | fuel + 1, .whileS i1 c1 b1, .whileS i2 c2 b2 =>
    if i1 == i2 then
      andEq (exprEq fuel c1 c2) (fun _ => stmtEq fuel b1 b2)
    else Option.some false
  | _ + 1, _, _ => Option.some false

def stmtListEq : Nat → List Stmt → List Stmt → Option Bool
  | 0, _, _ => Option.none
  | _ + 1, [], [] => Option.some true
  | fuel + 1, a :: as, b :: bs =>
    andEq (stmtEq fuel a b) (fun _ => stmtListEq fuel as bs)
  | _ + 1, _, _ => Option.some false

end

end ValueEq

/-! ## Callables (src/tokens/lox_callable.rs) -/

/-- `LoxCallable::arity`: a class's arity is its `init` method's parameter
count (0 if none); a function's is its parameter count; natives take 0. -/
def arity (c : LoxCallable) : Nat :=
  match c.callable with
  | .cls cl =>
    match alGet cl.methods "init" with
    | Option.some m => m.params.length
    | Option.none => 0
  | .function f => f.params.length
  | .native _ => 0

def newFunction (body : List Stmt) (params : List Token) (env : Nat) : FunctionV :=
  ⟨body, params, env, false⟩

def newInitFunction (body : List Stmt) (params : List Token) (env : Nat) : FunctionV :=
  ⟨body, params, env, true⟩

/-! ## Expression primitives (src/interpreter/mod.rs) -/

/-- `evaluate_truthy`: `nil` and `false` are falsy, everything else truthy. -/
def evaluateTruthy : Literal → Bool
  | .nil => false
  | .boolean b => b
  | _ => true

/-- Abbreviated derived-`Debug` rendering of a `Callable`, used only in the
"Superclass must be a class" error (unreachable in the theorems below). -/
def callableKDebug : CallableK → String
  | .cls c => "Class(Class \x7b name: \"" ++ c.name ++ "\", .. \x7d)"
  | .function _ => "Function(Function \x7b .. \x7d)"
  | .native _ => "Native(..)"

/-- The match of `visit_binary` after both operands are evaluated.  Arms in
source order: arithmetic, concatenation, ordering, equality, type-error
fallback.  `rust_decimal` panics on a zero divisor.  The equality arms run
the derived `PartialEq` (`litEq`, `l != r` being `!(l == r)`), whose
content comparison of `Rc` references can recurse unboundedly: `fuel`
bounds that recursion, and exhausting it (`oot`) models the source still
recursing (ultimately a host stack overflow). -/
def binaryOp (st : RState) (fuel : Nat) (l : Literal) (operator : Token) (r : Literal) :
    Outcome Literal :=
  match l, operator.tokenType, r with
  | .number a, .plus, .number b => .ok (.number (Dec.add a b))
  | .number a, .minus, .number b => .ok (.number (Dec.sub a b))
  | .number a, .slash, .number b =>
    if Dec.isZero b then .panicked "Division by zero" else .ok (.number (Dec.div a b))
  | .number a, .star, .number b => .ok (.number (Dec.mul a b))
  | .string a, .plus, .string b => .ok (.string (a ++ b))
  | .number a, .greater, .number b => .ok (.boolean (Dec.blt b a))
  | .number a, .greaterEqual, .number b => .ok (.boolean (Dec.ble b a))
  | .number a, .less, .number b => .ok (.boolean (Dec.blt a b))
  | .number a, .lessEqual, .number b => .ok (.boolean (Dec.ble a b))
  | l', .equalEqual, r' =>
    match litEq st fuel l' r' with
    | Option.some b => .ok (.boolean b)
    | Option.none => .oot
  | l', .bangEqual, r' =>
    match litEq st fuel l' r' with
    | Option.some b => .ok (.boolean !b)
    | Option.none => .oot
  | l', _, r' =>
    match displayLit st l', displayLit st r' with
    | .ok ls, .ok rs =>
      .err ("Unsupported types for binary operation: " ++ ls ++ " " ++
        operator.lexeme ++ " " ++ rs)
    | .error p, _ => .panicked p
    | _, .error p => .panicked p

/-- The match of `visit_unary` after the operand is evaluated. -/
def unaryOp (st : RState) (operator : Token) (v : Literal) : Outcome Literal :=
  match operator.tokenType, v with
  | .bang, v' => .ok (.boolean (!evaluateTruthy v'))
  | .minus, .number n => .ok (.number (Dec.mul n ⟨-1, 0⟩))
  | .minus, v' =>
    match displayLit st v' with
    | .ok s => .err ("Invalid attempt to perform numerical negation on non-number: " ++ s)
    | .error p => .panicked p
  | _, v' =>
    match displayLit st v' with
    | .ok s =>
      .err ("The value '" ++ s ++ "' does not support the unary operation '" ++
        operator.lexeme ++ "'")
    | .error p => .panicked p

/-- The `?` operator: pass non-`ok` outcomes through, keeping the state. -/
def andThen {α β : Type} (r : Outcome α × RState)
    (f : α → RState → Outcome β × RState) : Outcome β × RState :=
  match r with
  | (.ok a, st) => f a st
  | (.err e, st) => (.err e, st)
  | (.ret v, st) => (.ret v, st)
  | (.panicked m, st) => (.panicked m, st)
  | (.oot, st) => (.oot, st)

/-- Bind each parameter to its argument (`params.iter().zip(arguments)`:
the iteration stops at the shorter list; arity checking makes them equal). -/
def defineParams (st : RState) (i : Nat) : List Token → List Literal → RState
  | p :: ps, a :: as => defineParams (envDefine st i p.lexeme a) i ps as
  | _, _ => st

/-! ## The interpreter (src/interpreter/mod.rs)

Statement execution and expression evaluation, fuelled: Lox programs can
loop forever, so each recursive step consumes fuel and `oot` marks a run
that would still be going.  `locals` is the resolver's distance map,
`eta` the host's implementations of native callables (§6: the host may
pre-populate the globals with natives; only `clock` exists). -/

section Interp

variable (locals : Locals) (eta : Nat → Literal)

mutual

def execute : Nat → Stmt → RState → Outcome Unit × RState
  | 0, _, st => (.oot, st)
  | fuel + 1, stmt, st =>
    match stmt with
    | .block _ statements =>
      let (i, st1) := withEnclosing st (peekEnv st)
      let st2 := pushScope st1 i
      let (r, st3) := executeBlock fuel statements st2
      (r, popScope st3)
    | .classS _ name superclass methods =>
      let scRes : Outcome Unit × RState :=
        match superclass with
        | Option.none => (.ok (), st)
        | Option.some v =>
          andThen (evaluate fuel (.variableE v) st) (fun lit st1 =>
            match lit with
            | .callable c =>
              match c.callable with
              | .cls cl =>
                -- `Some(LoxInstance::new(class))`: the evaluated superclass
                -- is wrapped in a fresh `LoxInstance`; the snapshot's
                -- `Class::new` (src/tokens/lox_callable.rs) has no
                -- superclass field, so the value cannot be stored further.
                let (_, st2) := instNew st1 cl
                (.ok (), st2)
              | ck => (.err ("Superclass must be a class. got " ++ callableKDebug ck), st1)
            | c =>
              match displayLit st1 c with
              | .ok s => (.err ("Superclass must be a class. got " ++ s), st1)
              | .error p => (.panicked p, st1))
      andThen scRes (fun _ st1 =>
        let nm := name.lexeme
        let st2 := envDefine st1 (peekEnv st1) nm .nil
        let ms := methods.foldl (fun acc m =>
          let f :=
            if m.name.lexeme == "init" then
              newInitFunction m.body m.params (peekEnv st2)
            else
              newFunction m.body m.params (peekEnv st2)
          alInsert acc m.name.lexeme f) []
        let cls := LoxCallable.mk nm (.cls (.mk nm ms))
        match envsAssign st2 nm (.callable cls) with
        | .ok st3 => (.ok (), st3)
        | .error e => (.err e, st2))
    | .expression _ e =>
      andThen (evaluate fuel e st) (fun _ st1 => (.ok (), st1))
    | .function f =>
      let env := peekEnv st
      let fn := LoxCallable.mk f.name.lexeme (.function (newFunction f.body f.params env))
      (.ok (), envDefine st env f.name.lexeme (.callable fn))
    | .ifS _ condition thenBranch elseBranch =>
      andThen (evaluate fuel condition st) (fun c st1 =>
        if evaluateTruthy c then execute fuel thenBranch st1
        else execute fuel elseBranch st1)
    | .print _ e =>
      andThen (evaluate fuel e st) (fun v st1 =>
        match displayLit st1 v with
        | .ok s => (.ok (), { st1 with output := st1.output ++ [s] })
        | .error p => (.panicked p, st1))
    | .returnS _ value =>
      andThen (evaluate fuel value st) (fun v st1 => (.ret v, st1))
    | .var _ name initializer =>
      let env := peekEnv st
      andThen (evaluate fuel initializer st) (fun v st1 =>
        (.ok (), envDefine st1 env name.lexeme v))
    | .whileS i condition body =>
      andThen (evaluate fuel condition st) (fun c st1 =>
        if !evaluateTruthy c then (.ok (), st1)
        else
          andThen (execute fuel body st1) (fun _ st2 =>
            execute fuel (.whileS i condition body) st2))

def executeBlock : Nat → List Stmt → RState → Outcome Unit × RState
  | 0, _, st => (.oot, st)
  | _ + 1, [], st => (.ok (), st)
  | fuel + 1, s :: rest, st =>
    andThen (execute fuel s st) (fun _ st1 => executeBlock fuel rest st1)

def evaluate : Nat → Expr → RState → Outcome Literal × RState
  | 0, _, st => (.oot, st)
  | fuel + 1, e, st =>
    match e with
    | .assign i name value =>
      andThen (evaluate fuel value st) (fun v st1 =>
        match assignExpression locals st1 i name.lexeme v with
        | .ok st2 => (.ok v, st2)
        | .err er => (.err er, st1)
        | .ret v' => (.ret v', st1)
        | .panicked m => (.panicked m, st1)
        | .oot => (.oot, st1))
    | .binary _ left operator right =>
      andThen (evaluate fuel left st) (fun l st1 =>
        andThen (evaluate fuel right st1) (fun r st2 =>
          (binaryOp st2 fuel l operator r, st2)))
    | .call _ callee arguments =>
      andThen (evaluate fuel callee st) (fun cv st1 =>
        andThen (evalList fuel arguments st1) (fun argv st2 =>
          match cv with
          | .callable f => callF fuel f argv st2
          | _ => (.err "visit_call called with non function literal callee", st2)))
    | .get _ object name =>
      andThen (evaluate fuel object st) (fun ov st1 =>
        match ov with
        | .classInstance inst => instGet st1 inst name.lexeme
        | _ => (.err "Only instances have properties.", st1))
    | .grouping _ inner => evaluate fuel inner st
    | .literal _ v => (.ok v, st)
    | .logical _ left operator right =>
      andThen (evaluate fuel left st) (fun l st1 =>
        match evaluateTruthy l, operator.tokenType with
        | true, .andT => evaluate fuel right st1
        | false, .andT => (.ok l, st1)
        | true, .orT => (.ok l, st1)
        | false, .orT => evaluate fuel right st1
        | _, _ =>
          (.err ("visit_logical called with non and/or token: " ++ tokenDisplay operator),
            st1))
    | .set _ object name value =>
      andThen (evaluate fuel object st) (fun ov st1 =>
        match ov with
        | .classInstance o =>
          andThen (evaluate fuel value st1) (fun v st2 =>
            (.ok v, instSet st2 o name.lexeme v))
        | _ => (.err "Only instances have fields.", st1))
    | .superE _ =>
      -- interpreter/mod.rs implements no `visit_super` although the
      -- generated `Visitor` trait demands one; unreachable here because the
      -- parser never produces a `Super` expression.
      (.panicked "not implemented: visit_super", st)
    | .thisE t =>
      (lookUpVariable locals st t.keyword.lexeme (.mk t.id t.keyword), st)
    | .unary _ operator right =>
      andThen (evaluate fuel right st) (fun v st1 => (unaryOp st1 operator v, st1))
    | .variableE v => (lookUpVariable locals st v.name.lexeme v, st)

def evalList : Nat → List Expr → RState → Outcome (List Literal) × RState
  | 0, _, st => (.oot, st)
  | _ + 1, [], st => (.ok [], st)
  | fuel + 1, e :: rest, st =>
    andThen (evaluate fuel e st) (fun v st1 =>
      andThen (evalList fuel rest st1) (fun vs st2 => (.ok (v :: vs), st2)))

def callF : Nat → LoxCallable → List Literal → RState → Outcome Literal × RState
  | 0, _, _, st => (.oot, st)
  | fuel + 1, c, arguments, st =>
    if arity c != arguments.length then
      (.err ("Expected " ++ toString (arity c) ++ " arguments but got " ++
        toString arguments.length ++ "."), st)
    else
      match c.callable with
      | .cls cl =>
        let (inst, st1) := instNew st cl
        match findMethod st1 inst "init" with
        | Option.some initMethod =>
          let (bf, st2) := bindF st1 initMethod inst
          andThen (callF fuel (.mk "init" (.function bf)) arguments st2)
            (fun _ st3 => (.ok (.classInstance inst), st3))
        | Option.none => (.ok (.classInstance inst), st1)
      | .function f =>
        let (envIdx, st1) := withEnclosing st f.env
        let st2 := defineParams st1 envIdx f.params arguments
        let st3 := pushScope st2 envIdx
        let (r, st4) := executeBlock fuel f.body st3
        let res : Outcome Literal :=
          match r with
          | .ok _ =>
            if f.isInit then
              match getAtDistance st4 (peekEnv st4) 0 "this" with
              | .ok (Option.some v) => .ok v
              | .ok Option.none => .panicked "called `Option::unwrap()` on a `None` value"
              | .error p => .panicked p
            else .ok .nil
          | .ret v => .ok v
          | .err e => .err e
          | .panicked m => .panicked m
          | .oot => .oot
        (res, popScope st4)
      | .native n => (.ok (eta n), st)

end

end Interp

/-! ## The resolver (src/resolver.rs)

A static pass: a stack of `name ↦ declared/defined` scopes (head =
innermost), ambient function/class kinds, and the output `Locals` map. -/

inductive FunctionType where
  | none | function | initializerT | method

inductive ClassType where
  | none | classT | subclass

structure RSt where
  locals : List (Nat × Nat)
  scopes : List (List (String × Bool))
  currentFunction : FunctionType
  currentClass : ClassType

def beginScope (st : RSt) : RSt := { st with scopes := [] :: st.scopes }

def endScope (st : RSt) : RSt := { st with scopes := st.scopes.tail }

/-- `Resolver::declare`: an existing entry in the innermost scope is the
"Already a variable with this name in this scope." error; with no open
scope (global level) this is a no-op. -/
def declareR (st : RSt) (name : String) : Except String RSt :=
  match st.scopes with
  | [] => .ok st
  | top :: rest =>
    if alContains top name then
      .error "Already a variable with this name in this scope."
    else
      .ok { st with scopes := alInsert top name false :: rest }

def defineR (st : RSt) (name : String) : RSt :=
  match st.scopes with
  | [] => st
  | top :: rest => { st with scopes := alInsert top name true :: rest }

/-- `Scopes::force_define` (`last_mut().unwrap()`): always preceded by
`begin_scope`, so the unwrap cannot fire. -/
def forceDefineR (st : RSt) (name : String) : RSt := defineR st name

/-- `Scopes::get`: consults only the innermost scope. -/
def scopesGet (st : RSt) (name : String) : Option Bool :=
  match st.scopes with
  | [] => Option.none
  | top :: _ => alGet top name

/-- `Resolver::resolve_local`'s scan: index of the innermost scope
containing the name. -/
def findScopeDepth : List (List (String × Bool)) → String → Nat → Option Nat
  | [], _, _ => Option.none
  | top :: rest, name, i =>
    if alContains top name then Option.some i else findScopeDepth rest name (i + 1)

/-- `Resolver::resolve_local`: record the distance for this node (no scope
contains the name ⇒ left unresolved, i.e. global). -/
def resolveLocalR (st : RSt) (id : Nat) (name : String) : RSt :=
  match findScopeDepth st.scopes name 0 with
  | Option.some i => { st with locals := (id, i) :: st.locals }
  | Option.none => st

/-- `Resolver::visit_variable`: a present-but-undefined entry in the
innermost scope is the own-initializer error. -/
def visitVariableR (st : RSt) (v : VariableExpr) : Except String RSt :=
  match scopesGet st v.name.lexeme with
  | Option.some false => .error "Can't read local variable in its own initializer."
  | _ => .ok (resolveLocalR st v.id v.name.lexeme)

/-- `is_literal_nil` (src/resolver.rs). -/
def isLiteralNil : Expr → Bool
  | .literal _ v =>
    match v with
    | .nil => true
    | _ => false
  | _ => false

mutual

def resolveStmt : Stmt → RSt → Except String RSt
  | .block _ statements, st => do
    let st1 ← resolveStmts statements (beginScope st)
    .ok (endScope st1)
  | .classS _ name superclass methods, st => do
    let st1 ← declareR st name.lexeme
    let st2 := defineR st1 name.lexeme
    let enclosingClass := st2.currentClass
    let st3 := { st2 with currentClass := ClassType.classT }
    let st4 ←
      match superclass with
      | Option.none => pure st3
      | Option.some v =>
        if name.lexeme == v.name.lexeme then
          Except.error "A class can't inherit from itself."
        else do
          let st' := { st3 with currentClass := ClassType.subclass }
          let st'' ← visitVariableR st' v
          pure (defineR (beginScope st'') "super")
    let st5 := forceDefineR (beginScope st4) "this"
    let st6 ← resolveMethods methods st5
    let st7 := endScope st6
    let st8 := if superclass.isSome then endScope st7 else st7
    .ok { st8 with currentClass := enclosingClass }
  | .expression _ e, st => resolveExpr e st
  | .function f, st => do
    let st1 ← declareR st f.name.lexeme
    let st2 := defineR st1 f.name.lexeme
    resolveFunctionR f FunctionType.function st2
  | .ifS _ condition thenBranch elseBranch, st => do
    let st1 ← resolveExpr condition st
    let st2 ← resolveStmt thenBranch st1
    resolveStmt elseBranch st2
  | .print _ e, st => resolveExpr e st
  | .returnS _ value, st => do
    match st.currentFunction with
    | FunctionType.none => Except.error "Cannot return from top-level code."
    | FunctionType.initializerT =>
      if !isLiteralNil value then
        Except.error "Cannot return a value from an initializer."
      else
        resolveExpr value st
    | _ => resolveExpr value st
  | .var _ name initializer, st => do
    let st1 ← declareR st name.lexeme
    let st2 ← resolveExpr initializer st1
    .ok (defineR st2 name.lexeme)
  | .whileS _ condition body, st => do
    let st1 ← resolveExpr condition st
    resolveStmt body st1

def resolveStmts : List Stmt → RSt → Except String RSt
  | [], st => .ok st
  | s :: rest, st => do
    let st1 ← resolveStmt s st
    resolveStmts rest st1

def resolveExpr : Expr → RSt → Except String RSt
  | .assign i name value, st => do
    let st1 ← resolveExpr value st
    .ok (resolveLocalR st1 i name.lexeme)
  | .binary _ left _ right, st => do
    let st1 ← resolveExpr left st
    resolveExpr right st1
  | .call _ callee arguments, st => do
    let st1 ← resolveExpr callee st
    resolveExprList arguments st1
  | .get _ object _, st => resolveExpr object st
  | .grouping _ inner, st => resolveExpr inner st
  | .literal _ _, st => .ok st
  | .logical _ left _ right, st => do
    let st1 ← resolveExpr left st
    resolveExpr right st1
  | .set _ object _ value, st => do
    let st1 ← resolveExpr value st
    resolveExpr object st1
  | .superE e, st =>
    match st.currentClass with
    | ClassType.none => .error "Can't use 'super' outside of a class."
    | ClassType.classT => .error "Can't use 'super' in a class with no superclass."
    | ClassType.subclass => .ok (resolveLocalR st e.id e.keyword.lexeme)
  | .thisE e, st =>
    match st.currentClass with
    | ClassType.none => .error "Can't use 'this' outside of a class."
    | _ => .ok (resolveLocalR st e.id e.keyword.lexeme)
  | .unary _ _ right, st => resolveExpr right st
  | .variableE v, st => visitVariableR st v

def resolveExprList : List Expr → RSt → Except String RSt
  | [], st => .ok st
  | e :: rest, st => do
    let st1 ← resolveExpr e st
    resolveExprList rest st1

def resolveFunctionR : FunctionStmt → FunctionType → RSt → Except String RSt
  | .mk _ _ params body, ftype, st => do
    let enclosingFunction := st.currentFunction
    let st1 := beginScope { st with currentFunction := ftype }
    let st2 ← resolveParams params st1
    let st3 ← resolveStmts body st2
    .ok { endScope st3 with currentFunction := enclosingFunction }

def resolveParams : List Token → RSt → Except String RSt
  | [], st => .ok st
  | p :: rest, st => do
    let st1 ← declareR st p.lexeme
    resolveParams rest (defineR st1 p.lexeme)

def resolveMethods : List FunctionStmt → RSt → Except String RSt
  | [], st => .ok st
  | m :: rest, st => do
    let ftype :=
      if m.name.lexeme == "init" then FunctionType.initializerT
      else FunctionType.method
    let st1 ← resolveFunctionR m ftype st
    resolveMethods rest st1

end

/-- `resolve_locals`: run the pass, prepending "Resolver Error: " on
failure. -/
def resolveLocals (statements : List Stmt) : Except (List String) Locals :=
  match resolveStmts statements ⟨[], [], FunctionType.none, ClassType.none⟩ with
  | .ok st => .ok st.locals
  | .error e => .error ["Resolver Error: " ++ e]

/-! ## The run pipeline -/

inductive RunResult where
  | staticError (errors : List String)
  | runtimeError (errors : List String)
  | panicked (msg : String)
  | timeout
  | finished
  deriving DecidableEq

/-- `Interpreter::interpret`: execute the statements in order; a
`SingleError` comes back as a one-element error list, an escaped
`ReturnValue` as "Unexpected return value: ...". -/
def interpret (locals : Locals) (eta : Nat → Literal) (fuel : Nat)
    (statements : List Stmt) (st : RState) : RunResult × RState :=
  match executeBlock locals eta fuel statements st with
  | (.ok _, st') => (.finished, st')
  | (.ret v, st') =>
    match displayLit st' v with
    | .ok s => (.runtimeError ["Unexpected return value: " ++ s], st')
    | .error p => (.panicked p, st')
  | (.err e, st') => (.runtimeError [e], st')
  | (.panicked m, st') => (.panicked m, st')
  | (.oot, st') => (.timeout, st')

/-- Modelled from the spec: the driver that chains the passes is not in the
snapshot (`main.rs` predates the interpreter); §2 fixes the pipeline
parse → resolve → interpret, and §7 makes a resolve error fatal before any
execution.  `globals` is the host-seeded global environment (§6), `eta`
the native implementations. -/
def runStmts (eta : Nat → Literal) (fuel : Nat) (globals : List (String × Literal))
    (statements : List Stmt) : RunResult × List String :=
  match resolveLocals statements with
  | .error es => (.staticError es, [])
  | .ok locals =>
    let st0 : RState := ⟨[⟨Option.none, globals⟩], [], [0], []⟩
    let (r, st') := interpret locals eta fuel statements st0
    (r, st'.output)

/-! ## The parser (src/parser.rs)

Recursive descent over an owned token queue, one token of lookahead, with
the shared id counter.  Errors are `Vec<String>`.  The recursion is
fuelled; fuel exhaustion (never reached on the inputs below) is reported
as an internal error. -/

structure PSt where
  tokens : List Token
  currentId : Nat

def genId (st : PSt) : Nat × PSt :=
  (st.currentId, { st with currentId := st.currentId + 1 })

/-- `Parser::peek`: `None` at the end or at the `Eof` marker (which is
never consumed as content). -/
def pPeek (st : PSt) : Option Token :=
  match st.tokens with
  | [] => Option.none
  | t :: _ => if t.tokenType == TokenType.eof then Option.none else Option.some t

def pPeekType (st : PSt) : TokenType :=
  match pPeek st with
  | Option.some t => t.tokenType
  | Option.none => TokenType.none

def pCheck (st : PSt) (tokenTypes : List TokenType) : Bool :=
  match pPeek st with
  | Option.none => false
  | Option.some t => tokenTypes.any (fun x => x == t.tokenType)

def pCheckOne (st : PSt) (tokenType : TokenType) : Bool := pCheck st [tokenType]

def pAdvance (st : PSt) : Except (List String) (Token × PSt) :=
  match st.tokens with
  | [] => .error ["Tried to pop_front on empty dequeue"]
  | t :: rest =>
    if t.tokenType == TokenType.eof then
      .error ["Tried to pop_front with only EOF left"]
    else
      .ok (t, { st with tokens := rest })

def pConsume (st : PSt) (tokenType : TokenType) (message : String) :
    Except (List String) (Token × PSt) :=
  if pCheck st [tokenType] then pAdvance st
  else
    let shown :=
      match pPeek st with
      | Option.some t => t
      | Option.none => Token.mk TokenType.none "<nothing>" Literal.nil 0
    .error ["Could not consume: " ++ tokenDisplay shown ++ ". \"" ++ message ++ "\""]

/-- Modelled from the spec: `expr::nil(id)` (its defining module is not in
the snapshot) builds the nil-literal expression — §4.1 desugars a missing
`for` condition / bare `return` value to the literal `nil`, and the
resolver's `is_literal_nil` accepts exactly this shape. -/
def exprNil (id : Nat) : Expr := Expr.literal id Literal.nil

/-- Modelled from the spec: `stmt::noop(id)` builds an empty block (the
snapshot's older stmt/mod.rs shows `Stmt::Block(BlockStmt::new(Vec::new()))`
before ids existed). -/
def stmtNoop (id : Nat) : Stmt := Stmt.block id []

/-- Abbreviated `Debug` of a statement, used only in the unreachable
"Expected function to return a function" parser arm. -/
def stmtDebugAbbrev : Stmt → String
  | .block .. => "Block(..)"
  | .classS .. => "Class(..)"
  | .expression .. => "Expression(..)"
  | .function _ => "Function(..)"
  | .ifS .. => "If(..)"
  | .print .. => "Print(..)"
  | .returnS .. => "Return(..)"
  | .var .. => "Var(..)"
  | .whileS .. => "While(..)"

mutual

def pDeclaration : Nat → PSt → Except (List String) (Stmt × PSt)
  | 0, _ => .error ["internal: parser fuel exhausted"]
  | fuel + 1, st =>
    -- `declaration` peeks (`unwrap` safe: callers check `peek().is_some()`).
    match pPeekType st with
    | TokenType.classT => do
      let (_, st1) ← pAdvance st
      pClassDeclaration fuel st1
    | TokenType.funT => do
      let (_, st1) ← pAdvance st
      pFunction fuel "function" st1
    | TokenType.varT => do
      let (_, st1) ← pAdvance st
      pVarDeclaration fuel st1
    | _ => pStatement fuel st

def pClassDeclaration : Nat → PSt → Except (List String) (Stmt × PSt)
  | 0, _ => .error ["internal: parser fuel exhausted"]
  | fuel + 1, st => do
    let (name, st1) ← pConsume st TokenType.identifier "Expect class name"
    let (superclass, st2) ←
      match pPeekType st1 with
      | TokenType.less => do
        let (_, sa) ← pAdvance st1
        let (identifier, sb) ← pConsume sa TokenType.identifier "Expect superclass name."
        let (i, sc) := genId sb
        pure (Option.some (VariableExpr.mk i identifier), sc)
      | _ => pure (Option.none, st1)
    let (_, st3) ← pConsume st2 TokenType.leftBrace "Expect '\x7b' before class body"
    let (methods, st4) ← pClassMethods fuel st3 []
    let (_, st5) ← pConsume st4 TokenType.rightBrace "Expect '\x7d' after class body."
    let (i, st6) := genId st5
    pure (Stmt.classS i name superclass methods, st6)

def pClassMethods : Nat → PSt → List FunctionStmt →
    Except (List String) (List FunctionStmt × PSt)
  | 0, _, _ => .error ["internal: parser fuel exhausted"]
  | fuel + 1, st, acc =>
    if (pPeek st).isSome && !pCheckOne st TokenType.rightBrace then do
      let (s, st1) ← pFunction fuel "method" st
      match s with
      | .function f => pClassMethods fuel st1 (acc ++ [f])
      | v => .error ["Expected function to return a function, returned: " ++ stmtDebugAbbrev v]
    else
      pure (acc, st)

def pFunction : Nat → String → PSt → Except (List String) (Stmt × PSt)
  | 0, _, _ => .error ["internal: parser fuel exhausted"]
  | fuel + 1, kind, st => do
    let (name, st1) ← pConsume st TokenType.identifier ("Expect " ++ kind ++ " name.")
    let (_, st2) ← pConsume st1 TokenType.leftParen ("Expect '(' after " ++ kind ++ " name.")
    let (params, st3) ← pParamsLoop fuel st2 []
    let (_, st4) ← pConsume st3 TokenType.leftBrace ("Expect '\x7b' before " ++ kind ++ " body")
    let (body, st5) ← pBlock fuel st4 []
    let (i, st6) := genId st5
    pure (Stmt.function (FunctionStmt.mk i name params body), st6)

def pParamsLoop : Nat → PSt → List Token → Except (List String) (List Token × PSt)
  | 0, _, _ => .error ["internal: parser fuel exhausted"]
  | fuel + 1, st, params =>
    if params.length > 255 then
      .error ["Can't have more than 255 parameters."]
    else
      match pPeekType st with
      | TokenType.comma => do
        let (_, st1) ← pAdvance st
        pParamsLoop fuel st1 params
      | TokenType.identifier => do
        let (p, st1) ← pAdvance st
        pParamsLoop fuel st1 (params ++ [p])
      | TokenType.rightParen => do
        let (_, st1) ← pAdvance st
        pure (params, st1)
      | _ => .error ["Expect parameter name, comma, or right paren."]

def pVarDeclaration : Nat → PSt → Except (List String) (Stmt × PSt)
  | 0, _ => .error ["internal: parser fuel exhausted"]
  | fuel + 1, st => do
    let (name, st1) ← pConsume st TokenType.identifier "Expect variable name."
    let (initializer, st2) ←
      if pCheck st1 [TokenType.equal] then do
        let (_, sa) ← pAdvance st1
        pExpression fuel sa
      else
        let (i, sa) := genId st1
        pure (Expr.literal i Literal.nil, sa)
    let (_, st3) ← pConsume st2 TokenType.semicolon "Expect ';' after variable declaration"
    let (i, st4) := genId st3
    pure (Stmt.var i name initializer, st4)

def pStatement : Nat → PSt → Except (List String) (Stmt × PSt)
  | 0, _ => .error ["internal: parser fuel exhausted"]
  | fuel + 1, st =>
    match pPeek st with
    | Option.some t =>
      match t.tokenType with
      | TokenType.forT => do
        let (_, st1) ← pAdvance st
        pForStatement fuel st1
      | TokenType.ifT => do
        let (_, st1) ← pAdvance st
        pIfStatement fuel st1
      | TokenType.printT => do
        let (_, st1) ← pAdvance st
        pPrintStatement fuel st1
      | TokenType.returnT => do
        let (_, st1) ← pAdvance st
        pReturnStatement fuel st1
      | TokenType.whileT => do
        let (_, st1) ← pAdvance st
        pWhileStatement fuel st1
      | TokenType.leftBrace => do
        let (_, st1) ← pAdvance st
        -- `BlockStmt::new(self.gen_id(), self.block()?)`: the id is drawn
        -- before the contents are parsed (Rust argument order).
        let (i, st2) := genId st1
        let (statements, st3) ← pBlock fuel st2 []
        pure (Stmt.block i statements, st3)
      | _ => pExpressionStatement fuel st
    | Option.none => pExpressionStatement fuel st

def pForStatement : Nat → PSt → Except (List String) (Stmt × PSt)
  | 0, _ => .error ["internal: parser fuel exhausted"]
  | fuel + 1, st => do
    let (_, st1) ← pConsume st TokenType.leftParen "Expect '(' after 'for'."
    let (initializer, st2) ←
      match pPeekType st1 with
      | TokenType.semicolon => do
        let (_, sa) ← pAdvance st1
        let (i, sb) := genId sa
        pure (stmtNoop i, sb)
      | TokenType.varT => do
        let (_, sa) ← pAdvance st1
        pVarDeclaration fuel sa
      | _ => pExpressionStatement fuel st1
    let (condition, st3) ←
      match pPeekType st2 with
      | TokenType.semicolon =>
        let (i, sa) := genId st2
        pure (exprNil i, sa)
      | _ => pExpression fuel st2
    let (_, st4) ← pConsume st3 TokenType.semicolon "Expect ';' after 'for' condition."
    let (increment, st5) ←
      match pPeekType st4 with
      | TokenType.rightParen =>
        let (i, sa) := genId st4
        pure (exprNil i, sa)
      | _ => pExpression fuel st4
    let (_, st6) ← pConsume st5 TokenType.rightParen "Expect ')' after 'for' clauses."
    let (originalBody, st7) ← pStatement fuel st6
    let (i1, st8) := genId st7
    let (i2, st9) := genId st8
    let (i3, st10) := genId st9
    let (i4, st11) := genId st10
    pure (Stmt.block i1 [initializer,
      Stmt.whileS i2 condition (Stmt.block i3 [originalBody,
        Stmt.expression i4 increment])], st11)

def pWhileStatement : Nat → PSt → Except (List String) (Stmt × PSt)
  | 0, _ => .error ["internal: parser fuel exhausted"]
  | fuel + 1, st => do
    let (_, st1) ← pConsume st TokenType.leftParen "Expect '(' after 'while'."
    let (condition, st2) ← pExpression fuel st1
    let (_, st3) ← pConsume st2 TokenType.rightParen "Expect ')' after while condition."
    let (body, st4) ← pStatement fuel st3
    let (i, st5) := genId st4
    pure (Stmt.whileS i condition body, st5)

def pIfStatement : Nat → PSt → Except (List String) (Stmt × PSt)
  | 0, _ => .error ["internal: parser fuel exhausted"]
  | fuel + 1, st => do
    let (_, st1) ← pConsume st TokenType.leftParen "Expect '(' after 'if'."
    let (condition, st2) ← pExpression fuel st1
    let (_, st3) ← pConsume st2 TokenType.rightParen "Expect ')' after if condition."
    let (thenBranch, st4) ← pStatement fuel st3
    let (elseBranch, st5) ←
      match pPeekType st4 with
      | TokenType.elseT => do
        let (_, sa) ← pAdvance st4
        pStatement fuel sa
      | _ =>
        let (i, sa) := genId st4
        pure (stmtNoop i, sa)
    let (i, st6) := genId st5
    pure (Stmt.ifS i condition thenBranch elseBranch, st6)

def pReturnStatement : Nat → PSt → Except (List String) (Stmt × PSt)
  | 0, _ => .error ["internal: parser fuel exhausted"]
  | fuel + 1, st => do
    let (value, st1) ←
      match pPeekType st with
      | TokenType.semicolon =>
        let (i, sa) := genId st
        pure (exprNil i, sa)
      | _ => pExpression fuel st
    let (_, st2) ← pConsume st1 TokenType.semicolon "Expect ';' return statement value."
    let (i, st3) := genId st2
    pure (Stmt.returnS i value, st3)

def pPrintStatement : Nat → PSt → Except (List String) (Stmt × PSt)
  | 0, _ => .error ["internal: parser fuel exhausted"]
  | fuel + 1, st => do
    let (value, st1) ← pExpression fuel st
    let (_, st2) ← pConsume st1 TokenType.semicolon "Expect ';' after value."
    let (i, st3) := genId st2
    pure (Stmt.print i value, st3)

def pExpressionStatement : Nat → PSt → Except (List String) (Stmt × PSt)
  | 0, _ => .error ["internal: parser fuel exhausted"]
  | fuel + 1, st => do
    let (e, st1) ← pExpression fuel st
    let (_, st2) ← pConsume st1 TokenType.semicolon "Expect ';' after expression."
    let (i, st3) := genId st2
    pure (Stmt.expression i e, st3)

def pBlock : Nat → PSt → List Stmt → Except (List String) (List Stmt × PSt)
  | 0, _, _ => .error ["internal: parser fuel exhausted"]
  | fuel + 1, st, acc =>
    if (pPeek st).isSome && !pCheck st [TokenType.rightBrace] then do
      let (s, st1) ← pDeclaration fuel st
      pBlock fuel st1 (acc ++ [s])
    else do
      let (_, st1) ← pConsume st TokenType.rightBrace "Expect '\x7d' after block."
      pure (acc, st1)

def pExpression : Nat → PSt → Except (List String) (Expr × PSt)
  | 0, _ => .error ["internal: parser fuel exhausted"]
  | fuel + 1, st => pAssignment fuel st

def pAssignment : Nat → PSt → Except (List String) (Expr × PSt)
  | 0, _ => .error ["internal: parser fuel exhausted"]
  | fuel + 1, st => do
    let (e, st1) ← pOr fuel st
    if pCheck st1 [TokenType.equal] then do
      let (_, st2) ← pAdvance st1
      let (value, st3) ← pAssignment fuel st2
      match e with
      | .get _ object name =>
        let (i, st4) := genId st3
        pure (Expr.set i object name value, st4)
      | .variableE v =>
        let (i, st4) := genId st3
        pure (Expr.assign i v.name value, st4)
      | _ => .error ["Invalid assignment target."]
    else
      pure (e, st1)

def pOr : Nat → PSt → Except (List String) (Expr × PSt)
  | 0, _ => .error ["internal: parser fuel exhausted"]
  | fuel + 1, st => do
    let (e, st1) ← pAnd fuel st
    pOrLoop fuel e st1

def pOrLoop : Nat → Expr → PSt → Except (List String) (Expr × PSt)
  | 0, _, _ => .error ["internal: parser fuel exhausted"]
  | fuel + 1, e, st =>
    if pCheckOne st TokenType.orT then do
      let (operator, st1) ← pAdvance st
      let (right, st2) ← pAnd fuel st1
      let (i, st3) := genId st2
      pOrLoop fuel (Expr.logical i e operator right) st3
    else
      pure (e, st)

def pAnd : Nat → PSt → Except (List String) (Expr × PSt)
  | 0, _ => .error ["internal: parser fuel exhausted"]
  | fuel + 1, st => do
    let (e, st1) ← pEquality fuel st
    pAndLoop fuel e st1

def pAndLoop : Nat → Expr → PSt → Except (List String) (Expr × PSt)
  | 0, _, _ => .error ["internal: parser fuel exhausted"]
  | fuel + 1, e, st =>
    if pCheckOne st TokenType.andT then do
      let (operator, st1) ← pAdvance st
      let (right, st2) ← pEquality fuel st1
      let (i, st3) := genId st2
      pAndLoop fuel (Expr.logical i e operator right) st3
    else
      pure (e, st)

def pEquality : Nat → PSt → Except (List String) (Expr × PSt)
  | 0, _ => .error ["internal: parser fuel exhausted"]
  | fuel + 1, st => do
    let (e, st1) ← pComparison fuel st
    pEqualityLoop fuel e st1

def pEqualityLoop : Nat → Expr → PSt → Except (List String) (Expr × PSt)
  | 0, _, _ => .error ["internal: parser fuel exhausted"]
  | fuel + 1, e, st =>
    if pCheck st [TokenType.bangEqual, TokenType.equalEqual] then do
      let (operator, st1) ← pAdvance st
      let (right, st2) ← pComparison fuel st1
      let (i, st3) := genId st2
      pEqualityLoop fuel (Expr.binary i e operator right) st3
    else
      pure (e, st)

def pComparison : Nat → PSt → Except (List String) (Expr × PSt)
  | 0, _ => .error ["internal: parser fuel exhausted"]
  | fuel + 1, st => do
    let (e, st1) ← pTerm fuel st
    pComparisonLoop fuel e st1

def pComparisonLoop : Nat → Expr → PSt → Except (List String) (Expr × PSt)
  | 0, _, _ => .error ["internal: parser fuel exhausted"]
  | fuel + 1, e, st =>
    if pCheck st [TokenType.greater, TokenType.greaterEqual,
        TokenType.less, TokenType.lessEqual] then do
      let (operator, st1) ← pAdvance st
      let (right, st2) ← pTerm fuel st1
      let (i, st3) := genId st2
      pComparisonLoop fuel (Expr.binary i e operator right) st3
    else
      pure (e, st)

def pTerm : Nat → PSt → Except (List String) (Expr × PSt)
  | 0, _ => .error ["internal: parser fuel exhausted"]
  | fuel + 1, st => do
    let (e, st1) ← pFactor fuel st
    pTermLoop fuel e st1

def pTermLoop : Nat → Expr → PSt → Except (List String) (Expr × PSt)
  | 0, _, _ => .error ["internal: parser fuel exhausted"]
  | fuel + 1, e, st =>
    if pCheck st [TokenType.plus, TokenType.minus] then do
      let (operator, st1) ← pAdvance st
      let (right, st2) ← pFactor fuel st1
      let (i, st3) := genId st2
      pTermLoop fuel (Expr.binary i e operator right) st3
    else
      pure (e, st)

def pFactor : Nat → PSt → Except (List String) (Expr × PSt)
  | 0, _ => .error ["internal: parser fuel exhausted"]
  | fuel + 1, st => do
    let (e, st1) ← pUnary fuel st
    pFactorLoop fuel e st1

def pFactorLoop : Nat → Expr → PSt → Except (List String) (Expr × PSt)
  | 0, _, _ => .error ["internal: parser fuel exhausted"]
  | fuel + 1, e, st =>
    if pCheck st [TokenType.slash, TokenType.star] then do
      let (operator, st1) ← pAdvance st
      let (right, st2) ← pUnary fuel st1
      let (i, st3) := genId st2
      pFactorLoop fuel (Expr.binary i e operator right) st3
    else
      pure (e, st)

def pUnary : Nat → PSt → Except (List String) (Expr × PSt)
  | 0, _ => .error ["internal: parser fuel exhausted"]
  | fuel + 1, st =>
    if !pCheck st [TokenType.bang, TokenType.minus] then
      pCall fuel st
    else do
      let (operator, st1) ← pAdvance st
      let (right, st2) ← pUnary fuel st1
      let (i, st3) := genId st2
      pure (Expr.unary i operator right, st3)

def pCall : Nat → PSt → Except (List String) (Expr × PSt)
  | 0, _ => .error ["internal: parser fuel exhausted"]
  | fuel + 1, st => do
    let (e, st1) ← pPrimary fuel st
    pCallLoop fuel e st1

def pCallLoop : Nat → Expr → PSt → Except (List String) (Expr × PSt)
  | 0, _, _ => .error ["internal: parser fuel exhausted"]
  | fuel + 1, e, st =>
    match pPeekType st with
    | TokenType.leftParen => do
      let (_, st1) ← pAdvance st
      let (e', st2) ← pFinishCall fuel e st1
      pCallLoop fuel e' st2
    | TokenType.dot => do
      let (_, st1) ← pAdvance st
      let (name, st2) ← pConsume st1 TokenType.identifier "Expect property name after '.'"
      let (i, st3) := genId st2
      pCallLoop fuel (Expr.get i e name) st3
    | _ => pure (e, st)

def pFinishCall : Nat → Expr → PSt → Except (List String) (Expr × PSt)
  | 0, _, _ => .error ["internal: parser fuel exhausted"]
  | fuel + 1, callee, st => do
    let (arguments, st1) ← pArgsLoop fuel st []
    let (_, st2) ← pConsume st1 TokenType.rightParen "Expect ')' after arguments."
    let (i, st3) := genId st2
    pure (Expr.call i callee arguments, st3)

def pArgsLoop : Nat → PSt → List Expr → Except (List String) (List Expr × PSt)
  | 0, _, _ => .error ["internal: parser fuel exhausted"]
  | fuel + 1, st, arguments =>
    if arguments.length > 255 then
      .error ["Can't have more than 255 arguments"]
    else
      match pPeekType st with
      | TokenType.comma => do
        let (_, st1) ← pAdvance st
        pArgsLoop fuel st1 arguments
      | TokenType.rightParen => pure (arguments, st)
      | _ => do
        let (e, st1) ← pExpression fuel st
        pArgsLoop fuel st1 (arguments ++ [e])

def pPrimary : Nat → PSt → Except (List String) (Expr × PSt)
  | 0, _ => .error ["internal: parser fuel exhausted"]
  | fuel + 1, st => do
    let (nextToken, st1) ← pAdvance st
    let (id, st2) := genId st1
    match nextToken.tokenType with
    | TokenType.falseT => pure (Expr.literal id (Literal.boolean false), st2)
    | TokenType.trueT => pure (Expr.literal id (Literal.boolean true), st2)
    | TokenType.nilT => pure (Expr.literal id Literal.nil, st2)
    | TokenType.number => pure (Expr.literal id nextToken.literal, st2)
    | TokenType.stringT => pure (Expr.literal id nextToken.literal, st2)
    | TokenType.identifier => pure (Expr.variableE (VariableExpr.mk id nextToken), st2)
    | TokenType.thisT => pure (Expr.thisE (ThisExpr.mk id nextToken), st2)
    | TokenType.leftParen => do
      let (inner, st3) ← pExpression fuel st2
      let (_, st4) ← pConsume st3 TokenType.rightParen "Expect ')' after expression"
      pure (Expr.grouping id inner, st4)
    | _ => .error ["Unrecognized primary token: " ++ tokenDisplay nextToken]

def pParseLoop : Nat → PSt → List Stmt → Except (List String) (List Stmt × PSt)
  | 0, _, _ => .error ["internal: parser fuel exhausted"]
  | fuel + 1, st, acc =>
    if (pPeek st).isSome then do
      let (s, st1) ← pDeclaration fuel st
      pParseLoop fuel st1 (acc ++ [s])
    else
      pure (acc, st)

end

/-- `parse`: the whole token stream to a statement list, ids starting
at 0. -/
def parse (fuel : Nat) (tokens : List Token) : Except (List String) (List Stmt) :=
  match pParseLoop fuel ⟨tokens, 0⟩ [] with
  | .ok (statements, _) => .ok statements
  | .error es => .error es

/-! ## Concrete programs

Token streams as delivered by the scanner's contract (§6): typed tokens
with lexeme, literal and line number, terminated by `Eof`. -/

def tok (tokenType : TokenType) (lex : String) : Token := .mk tokenType lex .nil 1

def tokId (name : String) : Token := tok .identifier name

def tokNum (lex : String) (m : Int) (s : Nat) : Token := .mk .number lex (.number ⟨m, s⟩) 1

def tokStr (content : String) : Token :=
  .mk .stringT ("\"" ++ content ++ "\"") (.string content) 1

def etaNil : Nat → Literal := fun _ => Literal.nil

/-- `class A { greet() { return "A"; } }
    class B < A { greet() { return super.greet() + "B"; } }` -/
def c2Tokens : List Token :=
  [tok .classT "class", tokId "A", tok .leftBrace "\x7b",
   tokId "greet", tok .leftParen "(", tok .rightParen ")", tok .leftBrace "\x7b",
   tok .returnT "return", tokStr "A", tok .semicolon ";",
   tok .rightBrace "\x7d", tok .rightBrace "\x7d",
   tok .classT "class", tokId "B", tok .less "<", tokId "A", tok .leftBrace "\x7b",
   tokId "greet", tok .leftParen "(", tok .rightParen ")", tok .leftBrace "\x7b",
   tok .returnT "return", tok .superT "super", tok .dot ".", tokId "greet",
   tok .leftParen "(", tok .rightParen ")", tok .plus "+", tokStr "B",
   tok .semicolon ";",
   tok .rightBrace "\x7d", tok .rightBrace "\x7d",
   tok .eof ""]

/-- `for (var i = 0;;) print 1;` -/
def c10Tokens : List Token :=
  [tok .forT "for", tok .leftParen "(",
   tok .varT "var", tokId "i", tok .equal "=", tokNum "0" 0 0, tok .semicolon ";",
   tok .semicolon ";", tok .rightParen ")",
   tok .printT "print", tokNum "1" 1 0, tok .semicolon ";",
   tok .eof ""]

/-- `fun makeCounter() { var count = 0;
       fun increment() { count = count + 1; return count; }
       return increment; }
     var a = makeCounter();
     print a(); print a(); print a();
     var b = makeCounter();
     print b();` -/
def c3Tokens : List Token :=
  [tok .funT "fun", tokId "makeCounter", tok .leftParen "(", tok .rightParen ")",
   tok .leftBrace "\x7b",
   tok .varT "var", tokId "count", tok .equal "=", tokNum "0" 0 0, tok .semicolon ";",
   tok .funT "fun", tokId "increment", tok .leftParen "(", tok .rightParen ")",
   tok .leftBrace "\x7b",
   tokId "count", tok .equal "=", tokId "count", tok .plus "+", tokNum "1" 1 0,
   tok .semicolon ";",
   tok .returnT "return", tokId "count", tok .semicolon ";",
   tok .rightBrace "\x7d",
   tok .returnT "return", tokId "increment", tok .semicolon ";",
   tok .rightBrace "\x7d",
   tok .varT "var", tokId "a", tok .equal "=", tokId "makeCounter",
   tok .leftParen "(", tok .rightParen ")", tok .semicolon ";",
   tok .printT "print", tokId "a", tok .leftParen "(", tok .rightParen ")", tok .semicolon ";",
   tok .printT "print", tokId "a", tok .leftParen "(", tok .rightParen ")", tok .semicolon ";",
   tok .printT "print", tokId "a", tok .leftParen "(", tok .rightParen ")", tok .semicolon ";",
   tok .varT "var", tokId "b", tok .equal "=", tokId "makeCounter",
   tok .leftParen "(", tok .rightParen ")", tok .semicolon ";",
   tok .printT "print", tokId "b", tok .leftParen "(", tok .rightParen ")", tok .semicolon ";",
   tok .eof ""]

/-- `class Box { init() { return; } }
     var b = Box();
     print b == nil;
     print b.init() == nil;` -/
def c1Tokens : List Token :=
  [tok .classT "class", tokId "Box", tok .leftBrace "\x7b",
   tokId "init", tok .leftParen "(", tok .rightParen ")", tok .leftBrace "\x7b",
   tok .returnT "return", tok .semicolon ";",
   tok .rightBrace "\x7d", tok .rightBrace "\x7d",
   tok .varT "var", tokId "b", tok .equal "=", tokId "Box",
   tok .leftParen "(", tok .rightParen ")", tok .semicolon ";",
   tok .printT "print", tokId "b", tok .equalEqual "==", tok .nilT "nil",
   tok .semicolon ";",
   tok .printT "print", tokId "b", tok .dot ".", tokId "init",
   tok .leftParen "(", tok .rightParen ")", tok .equalEqual "==", tok .nilT "nil",
   tok .semicolon ";",
   tok .eof ""]

/-- `var a = "outer"; { var a = a; }` -/
def c6Tokens : List Token :=
  [tok .varT "var", tokId "a", tok .equal "=", tokStr "outer", tok .semicolon ";",
   tok .leftBrace "\x7b",
   tok .varT "var", tokId "a", tok .equal "=", tokId "a", tok .semicolon ";",
   tok .rightBrace "\x7d",
   tok .eof ""]

/-- `print x;` with `x` never defined anywhere. -/
def c4Tokens : List Token :=
  [tok .printT "print", tokId "x", tok .semicolon ";", tok .eof ""]

/-- `print 0.1 + 0.2 == 0.3;` -/
def c9Tokens : List Token :=
  [tok .printT "print", tokNum "0.1" 1 1, tok .plus "+", tokNum "0.2" 2 1,
   tok .equalEqual "==", tokNum "0.3" 3 1, tok .semicolon ";", tok .eof ""]

/-- `print clock;` (to be run with the host-seeded `clock` native). -/
def c8Tokens : List Token :=
  [tok .printT "print", tokId "clock", tok .semicolon ";", tok .eof ""]

/-- `class A { } var x = A(); var y = A(); print x == y;` -/
def c7Tokens : List Token :=
  [tok .classT "class", tokId "A", tok .leftBrace "\x7b", tok .rightBrace "\x7d",
   tok .varT "var", tokId "x", tok .equal "=", tokId "A",
   tok .leftParen "(", tok .rightParen ")", tok .semicolon ";",
   tok .varT "var", tokId "y", tok .equal "=", tokId "A",
   tok .leftParen "(", tok .rightParen ")", tok .semicolon ";",
   tok .printT "print", tokId "x", tok .equalEqual "==", tokId "y",
   tok .semicolon ";",
   tok .eof ""]

/-- The host's global seeding (§6): the `clock` native under index 0. -/
def clockGlobals : List (String × Literal) :=
  [("clock", .callable (.mk "clock" (.native 0)))]

/-- Parse and run a token stream against seeded globals (the full §2
pipeline; parse errors abort before resolving). -/
def runTokens (eta : Nat → Literal) (fuel : Nat) (globals : List (String × Literal))
    (tokens : List Token) : RunResult × List String :=
  match parse 99 tokens with
  | .error es => (.staticError es, [])
  | .ok statements => runStmts eta fuel globals statements

/-! ## Auxiliary definitions for the theorems -/

/-- A fresh machine state: one empty global environment on the stack. -/
def emptyState : RState := ⟨[⟨Option.none, []⟩], [], [0], []⟩

/-- The runtime kind (constructor) of a value. -/
def litKind : Literal → Nat
  | .nil => 0
  | .boolean _ => 1
  | .callable _ => 2
  | .classInstance _ => 3
  | .number _ => 4
  | .string _ => 5

/-- Whether parsing fails (used to state parse failures decidably). -/
def parseFails (fuel : Nat) (tokens : List Token) : Bool :=
  match parse fuel tokens with
  | .error _ => true
  | .ok _ => false

/-- Whether parsing succeeds with exactly the expected statements, compared
by the source's own derived `Vec<Stmt>` equality (`stmtListEq`; parser
output holds no heap references, so any state serves and the fuel 999 far
exceeds the AST's depth). -/
def parsesTo (fuel : Nat) (tokens : List Token) (expected : List Stmt) : Bool :=
  match parse fuel tokens with
  | .ok ss => stmtListEq emptyState 999 ss expected == Option.some true
  | .error _ => false

/-- A closure named `f`, capturing a single-entry environment that stores
the closure itself — the heap shape left behind by
`fun mk() { fun f() {} return f; } var x = mk(); var y = mk();` (minus the
shared global parent, which `Rc::eq`'s pointer short-cut would skip
anyway). -/
def cycClosure (envIdx : Nat) : Literal :=
  .callable (.mk "f" (.function (.mk [] [] envIdx false)))

/-- Two such environment cells at indices 0 and 1. -/
def cycState : RState :=
  ⟨[⟨Option.none, [("f", cycClosure 0)]⟩, ⟨Option.none, [("f", cycClosure 1)]⟩],
    [], [0], []⟩

/-- The `==` of two values diverges: no recursion depth suffices for the
content comparison (in the source, the host stack overflows), so the
comparison never yields a boolean — and never an error either. -/
def equalityDiverges (st : RState) (l r : Literal) : Prop :=
  (∀ fuel, litEq st fuel l r = Option.none) ∧
  (∀ (fuel : Nat) (operator : Token), operator.tokenType = TokenType.equalEqual →
    binaryOp st fuel l operator r = Outcome.oot)

def plusTok : Token := tok .plus "+"
def minusTok : Token := tok .minus "-"
def starTok : Token := tok .star "*"
def greaterTok : Token := tok .greater ">"
def greaterEqualTok : Token := tok .greaterEqual ">="
def lessTok : Token := tok .less "<"
def lessEqualTok : Token := tok .lessEqual "<="

/-! ## Exactness of decimal arithmetic (helper lemmas) -/

theorem decAdd_exact (a b : Dec) : (Dec.add a b).toRat = a.toRat + b.toRat := by
  rcases a with ⟨m1, s1⟩
  rcases b with ⟨m2, s2⟩
  simp only [Dec.add, Dec.toRat]
  have e1 : ((10:ℚ)) ^ (max s1 s2 - s1) * 10 ^ s1 = 10 ^ (max s1 s2) :=
    pow_sub_mul_pow _ (le_max_left _ _)
  have e2 : ((10:ℚ)) ^ (max s1 s2 - s2) * 10 ^ s2 = 10 ^ (max s1 s2) :=
    pow_sub_mul_pow _ (le_max_right _ _)
  field_simp
  linear_combination (m1 * (10:ℚ) ^ s2) * e1 + (m2 * (10:ℚ) ^ s1) * e2

theorem decSub_exact (a b : Dec) : (Dec.sub a b).toRat = a.toRat - b.toRat := by
  rcases a with ⟨m1, s1⟩
  rcases b with ⟨m2, s2⟩
  simp only [Dec.sub, Dec.toRat]
  have e1 : ((10:ℚ)) ^ (max s1 s2 - s1) * 10 ^ s1 = 10 ^ (max s1 s2) :=
    pow_sub_mul_pow _ (le_max_left _ _)
  have e2 : ((10:ℚ)) ^ (max s1 s2 - s2) * 10 ^ s2 = 10 ^ (max s1 s2) :=
    pow_sub_mul_pow _ (le_max_right _ _)
  field_simp
  linear_combination (m1 * (10:ℚ) ^ s2) * e1 - (m2 * (10:ℚ) ^ s1) * e2

theorem decMul_exact (a b : Dec) : (Dec.mul a b).toRat = a.toRat * b.toRat := by
  rcases a with ⟨m1, s1⟩
  rcases b with ⟨m2, s2⟩
  simp only [Dec.mul, Dec.toRat]
  push_cast
  rw [pow_add]
  field_simp

theorem decBeq_exact (a b : Dec) : Dec.beq a b = decide (a.toRat = b.toRat) := by
  rcases a with ⟨m1, s1⟩
  rcases b with ⟨m2, s2⟩
  simp only [Dec.beq, Dec.toRat]
  rw [Bool.beq_eq_decide_eq, decide_eq_decide,
    div_eq_div_iff (by positivity) (by positivity)]
  constructor
  · intro h; exact_mod_cast h
  · intro h; exact_mod_cast h

theorem decBlt_exact (a b : Dec) : Dec.blt a b = decide (a.toRat < b.toRat) := by
  rcases a with ⟨m1, s1⟩
  rcases b with ⟨m2, s2⟩
  simp only [Dec.blt, Dec.toRat]
  rw [decide_eq_decide, div_lt_div_iff₀ (by positivity) (by positivity)]
  constructor
  · intro h; exact_mod_cast h
  · intro h; exact_mod_cast h

theorem decBle_exact (a b : Dec) : Dec.ble a b = decide (a.toRat ≤ b.toRat) := by
  rcases a with ⟨m1, s1⟩
  rcases b with ⟨m2, s2⟩
  simp only [Dec.ble, Dec.toRat]
  rw [decide_eq_decide, div_le_div_iff₀ (by positivity) (by positivity)]
  constructor
  · intro h; exact_mod_cast h
  · intro h; exact_mod_cast h

/-! ## The claims -/

/-- Claim C1 (code bug): instantiating `Box` does yield the instance (the
first printed line is "false", i.e. `b == nil` is false, even though `init`
body is an early bare `return;`), but invoking the bound `init` method
directly yields `nil`, not the instance: the second line, `b.init() == nil`,
prints "true".  `Function::bind` rebuilds the method with `Function::new`,
dropping the `is_initializer` flag, so the claimed always-return-`this`
behaviour fails for direct `init` calls. -/
theorem c1_direct_init_call_yields_nil :
    runTokens etaNil 64 [] c1Tokens = (.finished, ["false", "true"]) := by decide!

/-- Claim C2 (code bug): the program
`class A { greet() { return "A"; } } class B < A { greet() { return super.greet() + "B"; } }`
does not even parse: `Parser::primary` has no arm for the `super` keyword,
so parsing aborts with "Unrecognized primary token" at `super`.  (The
snapshot's `Class` also stores no superclass and `find_method` consults only
the class's own table, so the claimed lookup fallback does not exist.) -/
theorem c2_super_program_fails_to_parse :
    parseFails 99 c2Tokens = true ∧
    runTokens etaNil 64 [] c2Tokens =
      (.staticError
        ["Unrecognized primary token: Token\x7btoken_type: Super, lexeme: super, literal: Nil, line_number: 1\x7d"],
        []) := by decide!

/-- Claim C3 (confirmed): closures capture their defining environment by
reference: the same `makeCounter()` closure prints 1, 2, 3 on three
successive calls, and a second, independently created counter starts again
from 1. -/
theorem c3_closures_capture_by_reference :
    runTokens etaNil 64 [] c3Tokens = (.finished, ["1", "2", "3", "1"]) := by decide!

/-- Claim C4 (counterexample): reading a name that is neither in the
resolver's map nor in the global environment does not produce a runtime
error result — `Environments::look_up_variable` executes
`panic!("variable with name '{}' not defined", ...)`, a host-level abort:
running `print x;` panics (with empty output) instead of returning a
runtime error. -/
theorem c4_undefined_global_read_panics :
    runTokens etaNil 64 [] c4Tokens =
      (.panicked "variable with name 'x' not defined", []) := by decide!

/-- Claim C4 (amended): for every variable-read whose node is absent from
the locals map and whose name is absent from the global environment,
evaluation aborts with a host-level panic whose message names the variable
(rather than returning a runtime error value). -/
theorem c4_lookup_missing_panics_naming_variable (locals : Locals) (st : RState)
    (name : String) (v : VariableExpr)
    (h1 : localsGet locals v.id = Option.none)
    (h2 : getGlobal st (peekEnv st) name = Option.none) :
    lookUpVariable locals st name v =
      .panicked ("variable with name '" ++ v.name.lexeme ++ "' not defined") := by
  simp [lookUpVariable, h1, h2]

/-- Witness for the amended C4 theorem at a concrete input. -/
theorem c4_lookup_missing_panics_witness :
    lookUpVariable [] emptyState "x" (VariableExpr.mk 0 (tokId "x")) =
      .panicked "variable with name 'x' not defined" :=
  c4_lookup_missing_panics_naming_variable [] emptyState "x"
    (VariableExpr.mk 0 (tokId "x")) rfl rfl

/-- Claim C5 (confirmed): calling any callable with an argument count
different from its arity (class arity = `init` parameter count or 0)
returns the runtime error naming expected and actual counts, and leaves the
machine state — environments, instances, stack and output — completely
unchanged: no statement of the callee runs. -/
theorem c5_arity_mismatch_errors_without_execution (locals : Locals)
    (eta : Nat → Literal) (fuel : Nat) (c : LoxCallable) (arguments : List Literal)
    (st : RState) (h : arity c ≠ arguments.length) :
    callF locals eta (fuel + 1) c arguments st =
      (.err ("Expected " ++ toString (arity c) ++ " arguments but got " ++
        toString arguments.length ++ "."), st) := by
  have hb : (arity c != arguments.length) = true := by
    simpa [bne_iff_ne] using h
  simp [callF, hb]

/-- Witness for C5: a 0-arity native called with one argument. -/
theorem c5_arity_mismatch_witness :
    callF [] etaNil 1 (LoxCallable.mk "clock" (CallableK.native 0)) [Literal.nil]
      emptyState = (.err "Expected 0 arguments but got 1.", emptyState) :=
  c5_arity_mismatch_errors_without_execution [] etaNil 0
    (LoxCallable.mk "clock" (CallableK.native 0)) [Literal.nil] emptyState (by decide)

/-- Claim C6 (confirmed): a local variable whose initializer reads the
variable being declared — here `var a = "outer"; { var a = a; }` — is
rejected statically by the resolver ("Can't read local variable in its own
initializer."); the program is never executed and nothing is printed. -/
theorem c6_own_initializer_read_is_static_error :
    runTokens etaNil 64 [] c6Tokens =
      (.staticError ["Resolver Error: Can't read local variable in its own initializer."],
        []) := by decide!

/-- Claim C7 (counterexample): `==` does not yield a Boolean for every
pair of values: comparing two same-named closures that capture distinct
environment cells each containing the closure itself recurses through the
`Rc` contents forever — no recursion depth suffices, the source overflows
the host stack — so the comparison yields nothing at all (and `==`
evaluates to no value). -/
theorem c7_cyclic_closure_comparison_diverges :
    equalityDiverges cycState (cycClosure 0) (cycClosure 1) := by
  have key : ∀ fuel, litEq cycState fuel (cycClosure 0) (cycClosure 1) = Option.none := by
    intro fuel
    induction fuel using Nat.strong_induction_on with
    | _ n ih =>
      rcases Nat.lt_or_ge n 6 with h | h
      · interval_cases n <;> decide!
      · obtain ⟨m, rfl⟩ : ∃ m, n = m + 6 := ⟨n - 6, by omega⟩
        have hm := ih m (by omega)
        simp only [cycClosure, cycState] at hm
        -- one full cycle of the content comparison consumes six fuel units
        -- and arrives back at the very same pair
        simp [cycClosure, cycState, litEq, loxCallableEq, callableKEq, functionVEq,
          stmtListEq, tokenListEq, envRefEq, optEnvRefEq, valuesEq, andEq,
          envGetD, hm]
  refine ⟨key, ?_⟩
  intro fuel operator hop
  rcases operator with ⟨tt, lex, lit, ln⟩
  simp only [Token.tokenType] at hop
  subst hop
  have k2 := key fuel
  simp only [cycClosure, cycState] at k2
  simp [binaryOp, Token.tokenType, cycClosure, cycState, k2]

/-- Claim C7 (amended): whenever the derived structural content comparison
of two values terminates, `==` evaluates to exactly its boolean — never a
runtime error — and `!=` to exactly its negation; values of different
runtime kinds always compare `false`, immediately.  The comparison is by
content, not identity: `class A { } var x = A(); var y = A();
print x == y;` prints "true" — two fresh field-less instances of one class
are equal. -/
theorem c7_equality_content_comparison :
    (∀ (st : RState) (fuel : Nat) (l r : Literal) (operator : Token) (b : Bool),
      operator.tokenType = TokenType.equalEqual →
      litEq st fuel l r = Option.some b →
      binaryOp st fuel l operator r = .ok (.boolean b)) ∧
    (∀ (st : RState) (fuel : Nat) (l r : Literal) (operator : Token) (b : Bool),
      operator.tokenType = TokenType.bangEqual →
      litEq st fuel l r = Option.some b →
      binaryOp st fuel l operator r = .ok (.boolean !b)) ∧
    (∀ (st : RState) (fuel : Nat) (l r : Literal),
      litKind l ≠ litKind r → litEq st (fuel + 1) l r = Option.some false) ∧
    runTokens etaNil 64 [] c7Tokens = (.finished, ["true"]) := by
  refine ⟨?_, ?_, ?_, by decide!⟩
  · intro st fuel l r operator b hop hlit
    rcases operator with ⟨tt, lex, lit, ln⟩
    simp only [Token.tokenType] at hop
    subst hop
    cases l <;> cases r <;> simp [binaryOp, Token.tokenType, hlit]
  · intro st fuel l r operator b hop hlit
    rcases operator with ⟨tt, lex, lit, ln⟩
    simp only [Token.tokenType] at hop
    subst hop
    cases l <;> cases r <;> simp [binaryOp, Token.tokenType, hlit]
  · intro st fuel l r h
    cases l <;> cases r <;> first | exact absurd rfl h | simp [litEq]

/-- Witness for the amended C7 theorem at concrete inputs: `nil == nil` is
`true`, `nil != nil` is `false`, and `nil` and `true` are of different
kinds, comparing `false`. -/
theorem c7_equality_content_witness :
    binaryOp emptyState 8 .nil (tok .equalEqual "==") .nil = .ok (.boolean true) ∧
    binaryOp emptyState 8 .nil (tok .bangEqual "!=") .nil = .ok (.boolean false) ∧
    litEq emptyState 8 .nil (.boolean true) = Option.some false := by
  obtain ⟨h1, h2, h3, _⟩ := c7_equality_content_comparison
  exact ⟨h1 emptyState 8 .nil .nil (tok .equalEqual "==") true rfl (by decide!),
         h2 emptyState 8 .nil .nil (tok .bangEqual "!=") true rfl (by decide!),
         h3 emptyState 7 .nil (.boolean true) (by decide)⟩

/-- Claim C8 (code bug): stringification is not total over callables: the
`Callable::Native` arm of `Display for LoxCallable` is a `todo!()`, so
`print clock;` (with the host-seeded native `clock`) panics with
"not yet implemented: <native-fn clock>" instead of printing a line. -/
theorem c8_native_display_panics :
    displayLoxCallable (LoxCallable.mk "clock" (CallableK.native 0)) =
      .error "not yet implemented: <native-fn clock>" ∧
    runTokens etaNil 64 clockGlobals c8Tokens =
      (.panicked "not yet implemented: <native-fn clock>", []) :=
  ⟨rfl, by decide!⟩

/-- Claim C9 (confirmed): numbers are exact decimals: the full pipeline on
`print 0.1 + 0.2 == 0.3;` prints "true", and on Number operands the
arithmetic operators `+`, `-`, `*` produce exactly the rational result
(no rounding drift) while the four comparisons decide exactly the rational
order, as does `==`'s numeric equality. -/
theorem c9_exact_decimal_arithmetic :
    runTokens etaNil 64 [] c9Tokens = (.finished, ["true"]) ∧
    (∀ (st : RState) (fuel : Nat) (a b : Dec),
      binaryOp st fuel (.number a) plusTok (.number b) = .ok (.number (Dec.add a b)) ∧
      binaryOp st fuel (.number a) minusTok (.number b) = .ok (.number (Dec.sub a b)) ∧
      binaryOp st fuel (.number a) starTok (.number b) = .ok (.number (Dec.mul a b)) ∧
      binaryOp st fuel (.number a) greaterTok (.number b) = .ok (.boolean (Dec.blt b a)) ∧
      binaryOp st fuel (.number a) greaterEqualTok (.number b) = .ok (.boolean (Dec.ble b a)) ∧
      binaryOp st fuel (.number a) lessTok (.number b) = .ok (.boolean (Dec.blt a b)) ∧
      binaryOp st fuel (.number a) lessEqualTok (.number b) = .ok (.boolean (Dec.ble a b))) ∧
    (∀ a b : Dec, (Dec.add a b).toRat = a.toRat + b.toRat) ∧
    (∀ a b : Dec, (Dec.sub a b).toRat = a.toRat - b.toRat) ∧
    (∀ a b : Dec, (Dec.mul a b).toRat = a.toRat * b.toRat) ∧
    (∀ a b : Dec, Dec.blt a b = decide (a.toRat < b.toRat)) ∧
    (∀ a b : Dec, Dec.ble a b = decide (a.toRat ≤ b.toRat)) ∧
    (∀ a b : Dec, Dec.beq a b = decide (a.toRat = b.toRat)) :=
  ⟨by decide!,
   fun _ _ _ _ => ⟨rfl, rfl, rfl, rfl, rfl, rfl, rfl⟩,
   decAdd_exact, decSub_exact, decMul_exact, decBlt_exact, decBle_exact, decBeq_exact⟩

/-- Claim C10 (confirmed): `for (var i = 0;;) print 1;` parses with the
missing condition desugared to the literal `nil` (the `While` node's
condition below), `nil` is falsy, and the run finishes immediately after
the initializer with nothing printed — the body never executes. -/
theorem c10_for_missing_condition_desugars_to_nil :
    parsesTo 99 c10Tokens
      [Stmt.block 6 [Stmt.var 1 (tokId "i") (Expr.literal 0 (.number ⟨0, 0⟩)),
        Stmt.whileS 7 (Expr.literal 2 .nil)
          (Stmt.block 8 [Stmt.print 5 (Expr.literal 4 (.number ⟨1, 0⟩)),
            Stmt.expression 9 (Expr.literal 3 .nil)])]] = true ∧
    evaluateTruthy .nil = false ∧
    runTokens etaNil 64 [] c10Tokens = (.finished, []) :=
  ⟨by decide!, rfl, by decide!⟩

end RLox
